import Mathlib

/-
  Verification development for the gRPC transport-mapping compiler
  (grpc/codegen/service_data.go of the goa repository).

  The Go source is shallowly embedded: the recursive attribute/type tree of
  the design language is the mutual inductive `DataType`/`Attr`/`NamedAttr`
  below, with user-type definitions held in an explicit environment `Env`
  (Go represents recursive user types through pointer cycles; the
  environment models exactly the `UserType.Attribute()` dereference).
  Stateful code (the `*ServiceData` accumulator, the per-service `seen` set
  and naming scopes, all mutated in place in Go) is modelled by explicit
  state passing.  Helpers that live outside the translated file
  (the attribute analyzer contract, `protoBufTransform`,
  `RecursiveValidationCode`, example/default rendering) are modelled from
  the specification; each such definition carries a comment saying so.
-/

namespace GoaGrpc

/-- Primitive kinds of the expr type system. -/
inductive PrimKind where
  | boolean | int | int32 | int64 | uint | uint32 | uint64
  | float32 | float64 | string | bytes
deriving DecidableEq

/-- Kinds as returned by the Go `DataType.Kind()` query (no unwrapping of
user types: a user type reports `userTypeKind`). -/
inductive Kind where
  | booleanKind | intKind | int32Kind | int64Kind | uintKind | uint32Kind
  | uint64Kind | float32Kind | float64Kind | stringKind | bytesKind
  | arrayKind | mapKind | objectKind | userTypeKind
deriving DecidableEq

mutual
/-- The closed variant set of the expr type system: primitives, the
distinguished Empty type (compared by pointer identity in Go), named user
types (their structural definition lives in an `Env`), objects, arrays and
maps. -/
inductive DataType where
  | primitive (k : PrimKind) : DataType
  | empty : DataType
  | userT (name : String) : DataType
  | object (fields : List NamedAttr) : DataType
  | arr (elem : Attr) : DataType
  | mapT (key elem : Attr) : DataType

/-- An attribute expression: a type together with its description. -/
inductive Attr where
  | mk (type : DataType) (description : String) : Attr

/-- A named field of an object. -/
inductive NamedAttr where
  | mk (name : String) (attr : Attr) : NamedAttr
end

def Attr.type : Attr → DataType
  | .mk t _ => t

def Attr.description : Attr → String
  | .mk _ d => d

def NamedAttr.name : NamedAttr → String
  | .mk n _ => n

def NamedAttr.attr : NamedAttr → Attr
  | .mk _ a => a

/-- Environment binding user type names to their definition attribute
(the Go `UserType.Attribute()`). -/
abbrev Env := List (String × Attr)

/-- Kind of the primitive kinds. -/
def primKindToKind : PrimKind → Kind
  | .boolean => .booleanKind
  | .int => .intKind
  | .int32 => .int32Kind
  | .int64 => .int64Kind
  | .uint => .uintKind
  | .uint32 => .uint32Kind
  | .uint64 => .uint64Kind
  | .float32 => .float32Kind
  | .float64 => .float64Kind
  | .string => .stringKind
  | .bytes => .bytesKind

/-- The Go `DataType.Kind()` query (Empty is a user type in the expr
package, hence reports the user type kind). -/
def DataType.kind : DataType → Kind
  | .primitive k => primKindToKind k
  | .empty => .userTypeKind
  | .userT _ => .userTypeKind
  | .object _ => .objectKind
  | .arr _ => .arrayKind
  | .mapT _ _ => .mapKind

/-- Unwraps user types down to the underlying structural type, following
environment definitions; Empty unwraps to the empty object (as in the expr
package, where Empty is a user type wrapping an empty object).  The fuel is
bounded by the environment size, enough for every well-formed model. -/
def underlying (env : Env) : Nat → DataType → DataType
  | 0, dt => dt
  | fuel + 1, .userT n =>
    match env.lookup n with
    | some a => underlying env fuel a.type
    | none => .userT n
  | _ + 1, .empty => .object []
  | _ + 1, dt => dt

/-- The Go `expr.AsObject`: the underlying object fields, if any. -/
def asObject (env : Env) (dt : DataType) : Option (List NamedAttr) :=
  match underlying env (env.length + 1) dt with
  | .object fields => some fields
  | _ => none

/-- The Go `expr.AsArray`: the underlying array element attribute, if any. -/
def asArray (env : Env) (dt : DataType) : Option Attr :=
  match underlying env (env.length + 1) dt with
  | .arr elem => some elem
  | _ => none

/-- The Go `expr.AsMap`: the underlying key/element attributes, if any. -/
def asMap (env : Env) (dt : DataType) : Option (Attr × Attr) :=
  match underlying env (env.length + 1) dt with
  | .mapT k e => some (k, e)
  | _ => none

/-- The Go `expr.IsPrimitive`: true if the underlying type is primitive. -/
def isPrimitive (env : Env) (dt : DataType) : Bool :=
  match underlying env (env.length + 1) dt with
  | .primitive _ => true
  | _ => false

/-- The Go `expr.IsObject`. -/
def isObject (env : Env) (dt : DataType) : Bool :=
  (asObject env dt).isSome

/-- Identity test against the distinguished Empty type (Go compares the
pointer `dt == expr.Empty`). -/
def isEmptyType : DataType → Bool
  | .empty => true
  | _ => false

/-- Translation of `needInit` (service_data.go): false for the Empty type
and for types whose underlying object has no fields. -/
def needInit (env : Env) (dt : DataType) : Bool :=
  if isEmptyType dt then false
  else
    match asObject env dt with
    | some o => !o.isEmpty
    | none => true

/-- Default attribute used where Go would dereference an always-present
pointer (empty object, as for the Empty type's definition). -/
def defaultAttr : Attr := Attr.mk (.object []) ""

/-- Modelled from the spec (§4.1, Type Analyzer contract; the concrete
analyzer families live in the codegen and service packages, outside the
translated file): an analyzer is bound to an attribute, a required flag and
the naming context (package, family tag distinguishing the service-side,
wire-side and projected families). -/
structure Analyzer where
  attr : Option Attr
  required : Bool
  pkg : String
  fam : String

/-- Modelled from the spec (§4.1): `Dup(newAttribute, required)` re-points
the analyzer at a different attribute, keeping the naming context. -/
def Analyzer.dup (an : Analyzer) (a : Attr) (required : Bool) : Analyzer :=
  { an with attr := some a, required := required }

@[simp] theorem Analyzer.dup_attr (an : Analyzer) (a : Attr) (r : Bool) :
    (an.dup a r).attr = some a := rfl

/-- Modelled from the spec (§4.1, §4.3): `IsPointer()` reports whether the
bound attribute is nullable, i.e. not required. -/
def Analyzer.isPointer (an : Analyzer) : Bool := !an.required

/-- Deterministic type name of a data type (used by the modelled analyzer
`Name` query; the exact spelling is a naming concern of the external
codegen package and only its determinism matters here). -/
def typeNameStr : DataType → String
  | .primitive .boolean => "bool"
  | .primitive .int => "int"
  | .primitive .int32 => "int32"
  | .primitive .int64 => "int64"
  | .primitive .uint => "uint"
  | .primitive .uint32 => "uint32"
  | .primitive .uint64 => "uint64"
  | .primitive .float32 => "float32"
  | .primitive .float64 => "float64"
  | .primitive .string => "string"
  | .primitive .bytes => "bytes"
  | .empty => "Empty"
  | .userT n => n
  | .object _ => "struct"
  | .arr _ => "array"
  | .mapT _ _ => "map"

/-- Modelled from the spec (§4.1): `Name(qualified)` — canonical name of the
bound attribute's type, package-qualified on request. -/
def Analyzer.name (an : Analyzer) (q : Bool) : String :=
  let base := typeNameStr (an.attr.getD defaultAttr).type
  match (an.attr.getD defaultAttr).type with
  | .userT _ => if q then an.pkg ++ "." ++ base else base
  | .empty => if q then an.pkg ++ "." ++ base else base
  | _ => base

/-- Modelled from the spec (§4.1): `Ref(qualified)` — wire-safe reference,
adding one level of indirection when the attribute is optional and its
underlying type is primitive. -/
def Analyzer.ref (env : Env) (an : Analyzer) (q : Bool) : String :=
  let nm := an.name q
  if an.isPointer && isPrimitive env (an.attr.getD defaultAttr).type
  then "*" ++ nm else nm

/-- Data for a transform helper function (codegen.TransformFunctionData). -/
structure TransformFunctionData where
  name : String
  code : String

/-- External helpers used by the translated file that live in other
packages of the repository (not under the translated sources).  They are
modelled as explicit inputs so that every theorem holds for all of them:
`vcode` is codegen.RecursiveValidationCode, `exampleF` renders example
values (`att.Example(expr.Root.API.Random())`), `defaultV` is the
analyzer's `DefaultValue()`, `defF` its `Def()`, and `transform` is
protoBufTransform which, per the spec (§4.4), structurally matches the
source against the target and fails when the shapes are incompatible. -/
structure Ext where
  vcode : Analyzer → String → String
  exampleF : Attr → String
  defaultV : Analyzer → String
  defF : Analyzer → String
  transform : Analyzer → Analyzer → String → String → Bool →
    Except String (String × List TransformFunctionData)

/-- Capitalize the first character. -/
def capitalizeStr (s : String) : String := (s.take 1).toUpper ++ s.drop 1

/-- Modelled from the spec: codegen.Goify, a deterministic Go identifier
renaming (only determinism is relevant here). -/
def goify (s : String) (firstUpper : Bool) : String :=
  if firstUpper then capitalizeStr s else s

/-- Modelled from the spec: protoBufify, the protocol-buffer flavoured
identifier renaming. -/
def protoBufify (s : String) (firstUpper : Bool) : String :=
  goify s firstUpper

/-- Modelled from the spec (§4.2): protoBufMessageName derives the
generated message name deterministically from the attribute (the name
scope only guarantees uniqueness of the derived names). -/
def protoBufMessageName (att : Attr) : String :=
  match att.type with
  | .userT n => protoBufify n true
  | .empty => "Empty"
  | _ => ""

/-- Modelled from the spec (§4.3): NameScope.Unique returns a name that
does not collide with the names already in the scope. -/
def uniqueNameAux (scope : List String) : Nat → String → String
  | 0, n => n
  | k + 1, n => if scope.contains n then uniqueNameAux scope k (n ++ "x") else n

/-- Unique name resolution against a naming scope. -/
def uniqueName (scope : List String) (n : String) : String :=
  uniqueNameAux scope (scope.length + 1) n

/-- service.UserTypeData: one collected wire message definition. -/
structure UserTypeData where
  name : String
  varName : String
  description : String
  defCode : String
  ref : String
  typ : DataType

/-- ValidationData (service_data.go). -/
structure ValidationData where
  name : String
  defCode : String
  argName : String
  srcName : String
  srcRef : String

/-- MetadataData (service_data.go): one gRPC metadata field. -/
structure MetadataData where
  name : String
  attributeName : String
  description : String
  fieldName : String
  varName : String
  typeName : String
  typeRef : String
  required : Bool
  pointer : Bool
  stringSlice : Bool
  slice : Bool
  mapStringSlice : Bool
  mapFlag : Bool
  typ : DataType
  validate : String
  defaultValue : String
  exampleVal : String

/-- InitArgData (service_data.go): a single constructor argument. -/
structure InitArgData where
  name : String
  description : String
  ref : String
  fieldName : String
  typeName : String
  typeRef : String
  pointer : Bool
  required : Bool
  defaultValue : String
  validate : String
  exampleVal : String

/-- InitData (service_data.go): data to render a constructor. -/
structure InitData where
  name : String
  description : String
  args : List InitArgData
  returnVarName : String
  returnTypeRef : String
  returnIsStruct : Bool
  code : String

/-- ConvertData (service_data.go). -/
structure ConvertData where
  srcName : String
  srcRef : String
  tgtName : String
  tgtRef : String
  init : Option InitData
  validation : Option ValidationData

/-- RequestData (service_data.go). -/
structure RequestData where
  description : String
  message : Option UserTypeData
  metadata : List MetadataData
  serverConvert : Option ConvertData
  clientConvert : Option ConvertData
  cliArgs : List InitArgData

/-- ResponseData (service_data.go). -/
structure ResponseData where
  statusCode : String
  description : String
  message : Option UserTypeData
  headers : List MetadataData
  trailers : List MetadataData
  serverConvert : Option ConvertData
  clientConvert : Option ConvertData

/-- ErrorData (service_data.go).  The StatusCode field of the Go struct is
left at its zero value by buildErrorsData. -/
structure ErrorData where
  statusCode : String
  name : String
  ref : String
  response : ResponseData

/-- StreamData (service_data.go).  The Go struct holds a back-pointer to
its owning EndpointData, forming a reference cycle; the back-pointer is
not representable in a purely inductive model and is omitted (no claim
refers to it). -/
structure StreamData where
  varName : String
  typ : String
  serviceInterface : String
  interfaceName : String
  sendName : String
  sendDesc : String
  sendRef : String
  sendConvert : Option ConvertData
  recvConvert : Option ConvertData
  recvName : String
  recvDesc : String
  recvRef : String
  mustClose : Bool

/-- service.SchemeData (input model): only the fields read by the
translated file are modelled. -/
structure SchemeData where
  schemeName : String
  inLoc : String

/-- service.StreamData of the service package (input model): the method's
declared stream semantics. -/
structure SvcStreamData where
  varName : String
  interfaceName : String
  sendName : String
  recvName : String
  mustClose : Bool

/-- The viewed-result data of the input model: its full reference and the
"projected" attribute extracted by resultAnalyzer. -/
structure ViewedResultData where
  fullRef : String
  projected : Attr

/-- service.MethodData (input model): the fields read by the translated
file. -/
structure MethodData where
  name : String
  varName : String
  viewedResult : Option ViewedResultData
  serverStream : SvcStreamData
  clientStream : SvcStreamData
  requirements : List SchemeData

/-- service.Data (input model). -/
structure SvcData where
  name : String
  description : String
  pkgName : String
  structName : String
  viewsPkg : String
  scope : List String
  methods : List MethodData

/-- Lookup of svc.Method(name); the method always exists for endpoints of
a well-formed model (Go would dereference nil otherwise), so a default
carrying the requested name stands in for the impossible miss. -/
def svcMethod (svc : SvcData) (n : String) : MethodData :=
  (svc.methods.find? (fun m => m.name == n)).getD
    { name := n, varName := goify n true, viewedResult := none,
      serverStream := ⟨"", "", "", "", false⟩,
      clientStream := ⟨"", "", "", "", false⟩,
      requirements := [] }

/-- One entry produced by codegen.WalkMappedAttr over a mapped attribute:
attribute name, mapped element (metadata key), required flag and the
attribute. -/
structure MappedField where
  name : String
  elem : String
  required : Bool
  attr : Attr

/-- expr.GRPCErrorExpr (input model): the fields read by buildErrorsData. -/
structure GRPCErrorExpr where
  name : String
  responseStatusCode : Nat
  responseDescription : String
  errAttr : Attr

/-- expr.GRPCResponseExpr (input model). -/
structure GRPCResponseExpr where
  message : Attr
  headers : List MappedField
  trailers : List MappedField
  statusCode : Nat
  description : String

/-- The stream kind of a method expression. -/
inductive StreamKind where
  | noStream | clientStream | serverStream | bidirectionalStream
deriving DecidableEq

/-- expr.MethodExpr (input model). -/
structure MethodExpr where
  payload : Attr
  result : Attr
  streamingPayload : Attr
  stream : StreamKind

/-- expr.MethodExpr.IsStreaming. -/
def MethodExpr.isStreaming (m : MethodExpr) : Bool :=
  match m.stream with
  | .noStream => false
  | _ => true

/-- expr.MethodExpr.IsPayloadStreaming. -/
def MethodExpr.isPayloadStreaming (m : MethodExpr) : Bool :=
  match m.stream with
  | .clientStream => true
  | .bidirectionalStream => true
  | _ => false

/-- One scheme reference of a security requirement (input model). -/
structure SchemeRef where
  schemeName : String
  inLoc : String

/-- expr.RequirementExpr (input model). -/
structure RequirementExpr where
  schemes : List SchemeRef

/-- expr.GRPCEndpointExpr (input model). -/
structure GRPCEndpointExpr where
  name : String
  request : Attr
  streamingRequest : Attr
  response : GRPCResponseExpr
  metadata : List MappedField
  methodExpr : MethodExpr
  requirements : List RequirementExpr
  grpcErrors : List GRPCErrorExpr

/-- expr.GRPCServiceExpr (input model). -/
structure GRPCServiceExpr where
  name : String
  grpcEndpoints : List GRPCEndpointExpr

/-- The global input model: the gRPC service expressions
(expr.Root.API.GRPC), the service.Services registry and the user type
environment. -/
structure Root where
  grpcServices : List GRPCServiceExpr
  svcRegistry : List (String × SvcData)
  env : Env

/-- EndpointData (service_data.go). -/
structure EndpointData where
  serviceName : String
  pkgName : String
  servicePkgName : String
  method : MethodData
  payloadRef : String
  resultRef : String
  viewedResultRef : String
  request : RequestData
  response : ResponseData
  metadataSchemes : List SchemeData
  messageSchemes : List SchemeData
  errors : List ErrorData
  serverStruct : String
  serverInterface : String
  serverStream : Option StreamData
  clientStruct : String
  clientInterface : String
  clientStream : Option StreamData

/-- ServiceData (service_data.go). -/
structure ServiceData where
  service : SvcData
  pkgName : String
  name : String
  description : String
  endpoints : List EndpointData
  messages : List UserTypeData
  serverStruct : String
  clientStruct : String
  serverInit : String
  clientInit : String
  serverInterface : String
  clientInterface : String
  clientInterfaceInit : String
  transformHelpers : List TransformFunctionData
  validations : List ValidationData
  scope : List String

/-- Translation of ServiceData.Endpoint (service_data.go): the endpoint
data with the given method name, if any. -/
def ServiceData.endpoint (sd : ServiceData) (n : String) : Option EndpointData :=
  sd.endpoints.find? (fun ed => ed.method.name == n)

/-- Translation of ServiceData.HasUnaryEndpoint (service_data.go). -/
def ServiceData.hasUnaryEndpoint (sd : ServiceData) : Bool :=
  sd.endpoints.any (fun ed => ed.serverStream.isNone)

/-- Translation of ServiceData.HasStreamingEndpoint (service_data.go). -/
def ServiceData.hasStreamingEndpoint (sd : ServiceData) : Bool :=
  sd.endpoints.any (fun ed => ed.serverStream.isSome)

/-- Translation of ServiceData.ValidationFor (service_data.go). -/
def ServiceData.validationFor (sd : ServiceData) (n : String) : Option ValidationData :=
  sd.validations.find? (fun v => v.srcName == n)

/-- Number of user type names of the environment not yet in the seen set:
the primary termination measure of the message collection. -/
def unseenCount (env : Env) (seen : List String) : Nat :=
  ((env.map Prod.fst).filter (fun k => !seen.contains k)).length

theorem length_filter_le_of_imp {l : List String} {p q : String → Bool}
    (h : ∀ a, p a = true → q a = true) :
    (l.filter p).length ≤ (l.filter q).length := by
  induction l with
  | nil => simp
  | cons a t ih =>
    by_cases hp : p a = true
    · simp [List.filter, hp, h a hp]; omega
    · simp only [Bool.not_eq_true] at hp
      by_cases hq : q a = true
      · simp [List.filter, hp, hq]; omega
      · simp only [Bool.not_eq_true] at hq
        simp [List.filter, hp, hq]; omega

theorem length_filter_lt_of_imp {l : List String} {p q : String → Bool}
    (h : ∀ a, p a = true → q a = true) {n : String}
    (hn : n ∈ l) (hq : q n = true) (hp : p n = false) :
    (l.filter p).length < (l.filter q).length := by
  induction l with
  | nil => cases hn
  | cons a t ih =>
    rcases List.mem_cons.mp hn with rfl | hmem
    · simp [List.filter, hp, hq]
      have := length_filter_le_of_imp (l := t) h
      omega
    · by_cases hpa : p a = true
      · simp [List.filter, hpa, h a hpa]
        exact ih hmem
      · simp only [Bool.not_eq_true] at hpa
        by_cases hqa : q a = true
        · simp [List.filter, hpa, hqa]
          have := ih hmem; omega
        · simp only [Bool.not_eq_true] at hqa
          simp [List.filter, hpa, hqa]
          exact ih hmem

theorem contains_false_iff (l : List String) (a : String) :
    l.contains a = false ↔ a ∉ l := by
  induction l with
  | nil => simp
  | cons b t ih =>
    simp only [List.contains_cons, Bool.or_eq_false_iff, List.mem_cons, not_or, ih]
    constructor
    · rintro ⟨h1, h2⟩
      exact ⟨fun he => by simp [he.symm] at h1, h2⟩
    · rintro ⟨h1, h2⟩
      refine ⟨?_, h2⟩
      by_cases hb : (a == b) = true
      · exact absurd (eq_of_beq hb) h1
      · simpa using hb

theorem contains_append (l1 l2 : List String) (a : String) :
    (l1 ++ l2).contains a = (l1.contains a || l2.contains a) := by
  induction l1 with
  | nil => simp
  | cons b t ih => simp [List.contains_cons, ih, Bool.or_assoc]

theorem unseen_mono (env : Env) (adds seen : List String) :
    unseenCount env (adds ++ seen) ≤ unseenCount env seen := by
  apply length_filter_le_of_imp
  intro a ha
  simp only [Bool.not_eq_true', contains_false_iff, List.mem_append] at ha ⊢
  intro hmem; exact ha (Or.inr hmem)

theorem mem_keys_of_lookup {env : Env} {n : String} {a : Attr}
    (h : env.lookup n = some a) : n ∈ env.map Prod.fst := by
  induction env with
  | nil => simp [List.lookup] at h
  | cons p t ih =>
    simp only [List.lookup] at h
    by_cases he : (n == p.1) = true
    · simp only [List.map_cons, List.mem_cons]
      exact Or.inl (eq_of_beq he)
    · simp only [he, cond_false] at h
      simp only [List.map_cons, List.mem_cons]
      exact Or.inr (ih h)

theorem unseen_cons_lt (env : Env) {n : String} {seen : List String}
    (hmem : n ∈ env.map Prod.fst) (hns : seen.contains n = false) :
    unseenCount env (n :: seen) < unseenCount env seen := by
  apply length_filter_lt_of_imp (n := n)
  · intro a ha
    simp only [Bool.not_eq_true', contains_false_iff, List.mem_cons] at ha ⊢
    intro hmem2; exact ha (Or.inr hmem2)
  · exact hmem
  · simpa [contains_false_iff] using hns
  · simp [contains_false_iff]

theorem lex_of_le_of_lt {a b c d : Nat} (h1 : a ≤ c) (h2 : b < d) :
    Prod.Lex (· < ·) (· < ·) (a, b) (c, d) := by
  rcases Nat.lt_or_ge a c with h | h
  · exact Prod.Lex.left _ _ h
  · have : a = c := Nat.le_antisymm h1 h
    subst this
    exact Prod.Lex.right _ h2

mutual
/-- Translation of collectMessages (service_data.go): recurses through the
attribute bound to the analyzer and gathers all the messages.  The Go
function mutates the service data (appending validations) and the shared
`seen` map; here it returns the collected messages, the names newly added
to the seen set (in emission order) and the appended validations.  The
definition is total — by well-founded recursion on the pair (number of
environment type names not yet seen, size of the bound attribute) — which
is the termination argument for the Go recursion with its cycle guard. -/
def collectMessages (env : Env) (ext : Ext) (an : Analyzer) (seen : List String) :
    List UserTypeData × List String × List ValidationData :=
  match han : an.attr with
  | none => ([], [], [])
  | some (Attr.mk (DataType.userT n) d) =>
    if hseen : seen.contains n then ([], [], [])
    else
      let a := Attr.mk (DataType.userT n) d
      let nm := protoBufMessageName a
      let ref := an.ref env true
      let vDef := ext.vcode an "message"
      let vals0 : List ValidationData :=
        if vDef = "" then []
        else [⟨"Validate" ++ nm, vDef, "message", nm, ref⟩]
      match hlook : env.lookup n with
      | some da =>
        let utd : UserTypeData :=
          ⟨n, nm, da.description, ext.defF (an.dup da true), ref, .userT n⟩
        let rec_ := collectMessages env ext (an.dup da true) (n :: seen)
        (utd :: rec_.1, n :: rec_.2.1, vals0 ++ rec_.2.2)
      | none =>
        ([⟨n, nm, "", "", ref, .userT n⟩], [n], vals0)
  | some (Attr.mk (DataType.object fields) _) =>
    collectMessagesFields env ext an fields seen
  | some (Attr.mk (DataType.arr elem) _) =>
    collectMessages env ext (an.dup elem true) seen
  | some (Attr.mk (DataType.mapT k e) _) =>
    let r1 := collectMessages env ext (an.dup k true) seen
    let r2 := collectMessages env ext (an.dup e true) (r1.2.1 ++ seen)
    (r1.1 ++ r2.1, r1.2.1 ++ r2.2.1, r1.2.2 ++ r2.2.2)
  | some (Attr.mk (DataType.primitive _) _) => ([], [], [])
  | some (Attr.mk DataType.empty _) => ([], [], [])
  termination_by (unseenCount env seen, sizeOf an.attr)
  decreasing_by
  · exact Prod.Lex.left _ _
      (unseen_cons_lt env (mem_keys_of_lookup hlook) (by simpa using hseen))
  · exact lex_of_le_of_lt (Nat.le_refl _) (by simp [han] <;> omega)
  · exact lex_of_le_of_lt (Nat.le_refl _) (by simp [han] <;> omega)
  · exact lex_of_le_of_lt (Nat.le_refl _) (by simp [han] <;> omega)
  · exact lex_of_le_of_lt (unseen_mono env _ seen) (by simp [han] <;> omega)

/-- Field traversal of collectMessages for objects: recurses into every
field in declaration order, concatenating the results and threading the
seen set (the Go `seen` map is shared across sibling recursions). -/
def collectMessagesFields (env : Env) (ext : Ext) (an : Analyzer)
    (fs : List NamedAttr) (seen : List String) :
    List UserTypeData × List String × List ValidationData :=
  match fs with
  | [] => ([], [], [])
  | f :: rest =>
    let r1 := collectMessages env ext (an.dup f.attr true) seen
    let r2 := collectMessagesFields env ext an rest (r1.2.1 ++ seen)
    (r1.1 ++ r2.1, r1.2.1 ++ r2.2.1, r1.2.2 ++ r2.2.2)
  termination_by (unseenCount env seen, sizeOf fs)
  decreasing_by
  · exact lex_of_le_of_lt (Nat.le_refl _)
      (by cases f with | mk fn fa => simp [NamedAttr.attr] <;> omega)
  · exact lex_of_le_of_lt (unseen_mono env _ seen) (by simp <;> omega)
end

/-- Constructor for the wire-side analyzer family
(newProtoBufAnalyzer). -/
def protoBufAnalyzer (att : Attr) (pkg : String) : Analyzer :=
  ⟨some att, true, pkg, "pb"⟩

/-- Constructor for the service-side analyzer family
(service.PayloadAnalyzer / service.ResultAnalyzer). -/
def serviceAnalyzer (att : Attr) (pkg : String) : Analyzer :=
  ⟨some att, true, pkg, "svc"⟩

/-- Constructor for the projected-type analyzer family
(service.ProjectedTypeAnalyzer). -/
def projectedAnalyzer (att : Attr) (pkg : String) : Analyzer :=
  ⟨some att, true, pkg, "views"⟩

/-- Modelled from the spec (§4.6): the fixed, closed mapping table from
abstract status codes to protocol-level status code constants
(statusCodeToGRPCConst). -/
def statusCodeToGRPCConst (code : Nat) : String :=
  match code with
  | 0 => "codes.OK"
  | 1 => "codes.Canceled"
  | 2 => "codes.Unknown"
  | 3 => "codes.InvalidArgument"
  | 4 => "codes.DeadlineExceeded"
  | 5 => "codes.NotFound"
  | 13 => "codes.Internal"
  | c => "codes.Code" ++ toString c

/-- Modelled from the spec: scope.GoFullTypeRef — the package-qualified
reference to an attribute's type (naming concern of the external codegen
package; only determinism matters). -/
def goFullTypeRef (att : Attr) (pkg : String) : String :=
  pkg ++ "." ++ typeNameStr att.type

/-- Modelled from the spec (§4.4 step 4): codegen.AppendHelpers registers
transform helpers once, deduplicated by name. -/
def appendHelpers (l newHelpers : List TransformFunctionData) :
    List TransformFunctionData :=
  newHelpers.foldl
    (fun acc h => if acc.any (fun x => x.name == h.name) then acc else acc ++ [h]) l

/-- Modelled from the spec: service.AppendScheme appends a scheme unless
one with the same name is already present. -/
def appendScheme (l : List SchemeData) (s : SchemeData) : List SchemeData :=
  if l.any (fun x => x.schemeName == s.schemeName) then l else l ++ [s]

/-- Modelled from the spec: service.Scheme finds the scheme data with the
given name among the method requirements (always present for well-formed
models; Go would dereference nil otherwise). -/
def svcScheme (reqs : List SchemeData) (n : String) : SchemeData :=
  (reqs.find? (fun s => s.schemeName == n)).getD ⟨n, ""⟩

/-- The constructor argument built from one metadata entry; the identical
Go struct literal appears at the four call sites of service_data.go
(CLI arguments, request-decode, response headers, response trailers). -/
def mdInitArg (m : MetadataData) : InitArgData :=
  { name := m.varName, description := "", ref := m.varName,
    fieldName := m.fieldName, typeName := m.typeName, typeRef := m.typeRef,
    pointer := m.pointer, required := m.required, defaultValue := "",
    validate := m.validate, exampleVal := m.exampleVal }

/-- Translation of extractMetadata (service_data.go): collects the
request/response metadata from the mapped attribute, walking the mapped
fields in declaration order.  The naming scope (mutated by scope.Unique in
Go) is threaded and returned. -/
def extractMetadata (env : Env) (ext : Ext) (a : List MappedField)
    (serviceAn : Analyzer) (scope : List String) :
    List MetadataData × List String :=
  match a with
  | [] => ([], scope)
  | f :: rest =>
    let c := f.attr
    let arrOpt := asArray env c.type
    let mpOpt := asMap env c.type
    let an := serviceAn.dup c f.required
    let varn := uniqueName scope (goify f.name false)
    let pointer := an.isPointer && isPrimitive env c.type
    let fieldName0 := goify f.name true
    let fieldName :=
      if isObject env ((serviceAn.attr.getD defaultAttr).type) then fieldName0 else ""
    let m : MetadataData :=
      { name := f.elem, attributeName := f.name, description := c.description,
        fieldName := fieldName, varName := varn,
        typeName := an.name false, typeRef := an.ref env false,
        required := f.required, pointer := pointer,
        slice := arrOpt.isSome,
        stringSlice := arrOpt.isSome &&
          ((arrOpt.getD defaultAttr).type.kind == Kind.stringKind),
        mapFlag := mpOpt.isSome,
        mapStringSlice :=
          (match mpOpt with
           | none => false
           | some (k, e) =>
             k.type.kind == Kind.stringKind &&
             e.type.kind == Kind.arrayKind &&
             (((asArray env e.type).getD defaultAttr).type.kind == Kind.stringKind)),
        typ := c.type,
        validate := ext.vcode an varn,
        defaultValue := ext.defaultV an,
        exampleVal := ext.exampleF c }
    let r := extractMetadata env ext rest serviceAn (varn :: scope)
    (m :: r.1, r.2)

/-- Default convert data (zero value, used only to read fields of values
already known to be present). -/
def defaultConvert : ConvertData := ⟨"", "", "", "", none, none⟩

/-- Translation of buildConvertData (service_data.go): builds the
transformation data from source to target.  When protoBufTransform fails,
the Go code prints the error to standard output
(`fmt.Println(err.Error())`, tagged "TBD validate DSL so errors are not
possible") and returns a nil ConvertData: no error is propagated, the
service data is left untouched. -/
def buildConvertData (env : Env) (ext : Ext) (source target : Analyzer)
    (sourceVar targetVar : String) (proto : Bool) (sd : ServiceData)
    (fn : Option (InitData → InitData)) : Option ConvertData × ServiceData :=
  let srcAtt := source.attr.getD defaultAttr
  let tgtAtt := target.attr.getD defaultAttr
  let srcName := source.name true
  let srcRef := source.ref env true
  let tgtName := target.name true
  let tgtRef := target.ref env true
  let validation :=
    if proto then none else sd.validationFor (protoBufMessageName srcAtt)
  let n0 := if isPrimitive env tgtAtt.type then source.name false else target.name false
  let cname := "New" ++ n0
  let isStruct := isObject env tgtAtt.type
  match ext.transform source target sourceVar targetVar proto with
  | .error _ => (none, sd)
  | .ok (code, helpers) =>
    let sd1 := { sd with transformHelpers := appendHelpers sd.transformHelpers helpers }
    let args : List InitArgData :=
      [{ name := sourceVar, description := "", ref := sourceVar, fieldName := "",
         typeName := srcName, typeRef := srcRef, pointer := false, required := false,
         defaultValue := "", validate := "", exampleVal := ext.exampleF srcAtt }]
    let data0 : InitData :=
      { name := cname, description := "", args := args, returnVarName := targetVar,
        returnTypeRef := tgtRef, returnIsStruct := isStruct, code := code }
    let data := match fn with | some f => f data0 | none => data0
    (some { srcName := srcName, srcRef := srcRef, tgtName := tgtName, tgtRef := tgtRef,
            init := some data, validation := validation }, sd1)

/-- Translation of buildRequestConvertData (service_data.go): convert data
for the server and client requests.  Server side is skipped when the
method payload needs no construction; client side is skipped when the
payload is streaming. -/
def buildRequestConvertData (env : Env) (ext : Ext)
    (requestAn payloadAn : Analyzer) (md : List MetadataData)
    (e : GRPCEndpointExpr) (sd : ServiceData) (svr : Bool) :
    Option ConvertData × ServiceData :=
  if (svr && !needInit env e.methodExpr.payload.type) ||
     (!svr && e.methodExpr.isPayloadStreaming) then
    (none, sd)
  else if svr then
    let fn := fun (data : InitData) =>
      let data := { data with description :=
        data.name ++ " builds the payload of the " ++ e.name ++
        " endpoint of the " ++ sd.service.name ++
        " service from the gRPC request type." }
      let data :=
        if isEmptyType e.methodExpr.streamingPayload.type then data
        else { data with args := ([] : List InitArgData) }
      { data with args := data.args ++ md.map mdInitArg }
    buildConvertData env ext requestAn payloadAn "message" "payload" false sd (some fn)
  else
    let fn := fun (data : InitData) =>
      let data := { data with description :=
        data.name ++ " builds the gRPC request type from the payload of the " ++
        e.name ++ " endpoint of the " ++ sd.service.name ++ " service." }
      if isEmptyType e.methodExpr.streamingPayload.type then data
      else { data with args := ([] : List InitArgData) }
    buildConvertData env ext payloadAn requestAn "payload" "message" true sd (some fn)

/-- Translation of buildResponseConvertData (service_data.go): convert
data for the server and client responses; nothing is built for streaming
endpoints or when the method result needs no construction. -/
def buildResponseConvertData (env : Env) (ext : Ext)
    (responseAn resultAn : Analyzer) (hdrs trlrs : List MetadataData)
    (e : GRPCEndpointExpr) (sd : ServiceData) (svr : Bool) :
    Option ConvertData × ServiceData :=
  if e.methodExpr.isStreaming || !needInit env e.methodExpr.result.type then
    (none, sd)
  else if svr then
    let fn := fun (data : InitData) =>
      { data with description :=
        data.name ++ " builds the gRPC response type from the result of the " ++
        e.name ++ " endpoint of the " ++ sd.service.name ++ " service." }
    buildConvertData env ext resultAn responseAn "result" "message" true sd (some fn)
  else
    let fn := fun (data : InitData) =>
      let data := { data with description :=
        data.name ++ " builds the result type of the " ++ e.name ++
        " endpoint of the " ++ sd.service.name ++
        " service from the gRPC response type." }
      let data := { data with args := data.args ++ hdrs.map mdInitArg }
      { data with args := data.args ++ trlrs.map mdInitArg }
    buildConvertData env ext responseAn resultAn "message" "result" false sd (some fn)

/-- Translation of buildErrorsData (service_data.go). -/
def buildErrorsData (e : GRPCEndpointExpr) (sd : ServiceData) : List ErrorData :=
  e.grpcErrors.map (fun v =>
    { statusCode := "", name := v.name,
      ref := goFullTypeRef v.errAttr sd.service.pkgName,
      response :=
        { statusCode := statusCodeToGRPCConst v.responseStatusCode,
          description := v.responseDescription,
          message := none, headers := [], trailers := [],
          serverConvert := none, clientConvert := none } })

/-- Translation of resultAnalyzer (service_data.go): analyzer for the
endpoint result — the projected attribute of the viewed result when the
method has views, the method result otherwise. -/
def resultAnalyzer (e : GRPCEndpointExpr) (sd : ServiceData) : Analyzer :=
  let md := svcMethod sd.service e.name
  match md.viewedResult with
  | some vr => projectedAnalyzer vr.projected sd.service.viewsPkg
  | none => serviceAnalyzer e.methodExpr.result sd.service.pkgName

/-- Translation of buildStreamData (service_data.go): the stream data for
the server (svr = true) or client (svr = false) stream of a streaming
endpoint.  The endpoint data is looked up in the service data (Go
dereferences it unconditionally; the lookup cannot fail at the analyze
call sites, which run after the endpoint is appended). -/
def buildStreamData (env : Env) (ext : Ext) (e : GRPCEndpointExpr)
    (sd : ServiceData) (svr : Bool) : Option StreamData × ServiceData :=
  match sd.endpoint e.name with
  | none => (none, sd)
  | some ed =>
    let svc := sd.service
    let md := ed.method
    let spayloadAn := serviceAnalyzer e.methodExpr.streamingPayload svc.pkgName
    let resultAn := resultAnalyzer e sd
    let requestAn := protoBufAnalyzer e.streamingRequest sd.pkgName
    let responseAn := protoBufAnalyzer e.response.message sd.pkgName
    let resVar := if md.viewedResult.isSome then "vresult" else "result"
    if svr then
      let varn := md.serverStream.varName
      let intName := sd.pkgName ++ "." ++ svc.structName ++ "_" ++ md.varName ++ "Server"
      let svcInt := svc.pkgName ++ "." ++ md.serverStream.interfaceName
      let s1 :=
        if isEmptyType e.methodExpr.result.type then ("", "", none, sd)
        else
          let r := buildConvertData env ext resultAn responseAn resVar "v" true sd none
          (md.serverStream.sendName, ed.resultRef, r.1, r.2)
      let s2 :=
        if isEmptyType e.methodExpr.streamingPayload.type then ("", "", none, s1.2.2.2)
        else
          let r := buildConvertData env ext requestAn spayloadAn "v" "spayload" false s1.2.2.2 none
          (md.serverStream.recvName, spayloadAn.ref env true, r.1, r.2)
      let sendName := s1.1
      let sendRef := s1.2.1
      let sendConv := s1.2.2.1
      let recvName := s2.1
      let recvRef := s2.2.1
      let recvConv := s2.2.2.1
      let mustClose := md.serverStream.mustClose
      let sendDesc :=
        if sendConv.isSome then
          sendName ++ " streams instances of " ++ (sendConv.getD defaultConvert).tgtName ++
          " to the " ++ md.name ++ " endpoint gRPC stream."
        else ""
      let recvDesc :=
        if recvConv.isSome then
          recvName ++ " reads instances of " ++ (recvConv.getD defaultConvert).srcName ++
          " from the " ++ md.name ++ " endpoint gRPC stream."
        else ""
      (some { varName := varn, typ := "server", serviceInterface := svcInt,
              interfaceName := intName, sendName := sendName, sendDesc := sendDesc,
              sendRef := sendRef, sendConvert := sendConv, recvConvert := recvConv,
              recvName := recvName, recvDesc := recvDesc, recvRef := recvRef,
              mustClose := mustClose }, s2.2.2.2)
    else
      let varn := md.clientStream.varName
      let intName := sd.pkgName ++ "." ++ svc.structName ++ "_" ++ md.varName ++ "Client"
      let svcInt := svc.pkgName ++ "." ++ md.clientStream.interfaceName
      let s1 :=
        if isEmptyType e.methodExpr.streamingPayload.type then ("", "", none, sd)
        else
          let r := buildConvertData env ext spayloadAn requestAn "spayload" "v" true sd none
          (md.clientStream.sendName, spayloadAn.ref env true, r.1, r.2)
      let s2 :=
        if isEmptyType e.methodExpr.result.type then ("", "", none, s1.2.2.2)
        else
          let r := buildConvertData env ext responseAn resultAn "v" resVar false s1.2.2.2 none
          (md.clientStream.recvName, ed.resultRef, r.1, r.2)
      let sendName := s1.1
      let sendRef := s1.2.1
      let sendConv := s1.2.2.1
      let recvName := s2.1
      let recvRef := s2.2.1
      let recvConv := s2.2.2.1
      let mustClose := md.clientStream.mustClose
      let sendDesc :=
        if sendConv.isSome then
          sendName ++ " streams instances of " ++ (sendConv.getD defaultConvert).tgtName ++
          " to the " ++ md.name ++ " endpoint gRPC stream."
        else ""
      let recvDesc :=
        if recvConv.isSome then
          recvName ++ " reads instances of " ++ (recvConv.getD defaultConvert).srcName ++
          " from the " ++ md.name ++ " endpoint gRPC stream."
        else ""
      (some { varName := varn, typ := "client", serviceInterface := svcInt,
              interfaceName := intName, sendName := sendName, sendDesc := sendDesc,
              sendRef := sendRef, sendConvert := sendConv, recvConvert := recvConv,
              recvName := recvName, recvDesc := recvDesc, recvRef := recvRef,
              mustClose := mustClose }, s2.2.2.2)

/-- Modelled from the spec: makeProtoBufMessage (grpc/codegen/protobuf.go,
not among the translated sources) converts the attribute into a protocol
buffer message type named tname — a wire message is always a named user
type (the generated test fixtures show per-endpoint named request/response
messages even for methods without payload or result, so the Empty type is
replaced by a fresh empty message named tname; primitives are wrapped in a
message with one "field" attribute; objects/arrays/maps are wrapped under
tname; an attribute that is already a user type is kept).  The Go function
mutates the attribute in place; here the rewritten attribute and extended
environment are returned. -/
def makeProtoBufMessage (env : Env) (att : Attr) (tname : String) :
    Attr × Env :=
  match att.type with
  | .empty =>
    (Attr.mk (.userT tname) att.description, (tname, Attr.mk (.object []) "") :: env)
  | .userT _ => (att, env)
  | .primitive k =>
    (Attr.mk (.userT tname) att.description,
     (tname, Attr.mk (.object [NamedAttr.mk "field" (Attr.mk (.primitive k) "")]) "") :: env)
  | t => (Attr.mk (.userT tname) att.description, (tname, Attr.mk t "") :: env)

/-- The local `collect` closure of analyze (service_data.go): runs
collectMessages for the attribute, appends the collected messages and
validations to the service data, grows the shared seen set, and yields the
top-level message.  Go indexes `msgs[0]` unconditionally; the head of the
collected list models it (`none` marks the out-of-range panic, which the
closure's call sites avoid for well-formed inputs). -/
def collectInto (env : Env) (ext : Ext) (att : Attr) (pkg : String)
    (sd : ServiceData) (seen : List String) :
    Option UserTypeData × ServiceData × List String :=
  let r := collectMessages env ext (protoBufAnalyzer att pkg) seen
  (r.1.head?,
   { sd with messages := sd.messages ++ r.1,
             validations := sd.validations ++ r.2.2 },
   r.2.1 ++ seen)

/-- Translation of the request-data block of analyze (service_data.go
lines 460-504): metadata extraction, the two request convert data, the CLI
arguments (the wire message argument first when the request object has
fields, then one argument per metadata entry) and the collected request
message (the streaming request when the endpoint has a non-empty streaming
request, the unary request otherwise). -/
def requestDataBlock (env : Env) (ext : Ext) (e : GRPCEndpointExpr)
    (payloadAn : Analyzer) (exampleRnd : Attr → String)
    (sd : ServiceData) (seen svcScope : List String) :
    RequestData × ServiceData × List String × List String :=
  let requestAn := protoBufAnalyzer e.request sd.pkgName
  let mdr := extractMetadata env ext e.metadata payloadAn svcScope
  let reqMD := mdr.1
  let svcScope1 := mdr.2
  let c1 := buildRequestConvertData env ext requestAn payloadAn reqMD e sd true
  let c2 := buildRequestConvertData env ext requestAn payloadAn reqMD e c1.2 false
  let msgArgs : List InitArgData :=
    match asObject env e.request.type with
    | some obj =>
      if obj.length > 0 then
        [{ name := "message", description := "", ref := "message", fieldName := "",
           typeName := requestAn.name true, typeRef := requestAn.ref env true,
           pointer := false, required := false, defaultValue := "", validate := "",
           exampleVal := exampleRnd e.request }]
      else []
    | none => []
  let cliArgs := msgArgs ++ reqMD.map mdInitArg
  let coll :=
    if isEmptyType e.streamingRequest.type then
      collectInto env ext e.request sd.pkgName c2.2 seen
    else
      collectInto env ext e.streamingRequest sd.pkgName c2.2 seen
  ({ description := e.request.description, message := coll.1, metadata := reqMD,
     serverConvert := c1.1, clientConvert := c2.1, cliArgs := cliArgs },
   coll.2.1, coll.2.2, svcScope1)

/-- Translation of the response-data block of analyze (service_data.go
lines 506-531): header/trailer extraction, the two response convert data,
and the response message — collected unless the endpoint is streaming and
its response message type is the Empty type (gRPC returns no message on a
stream, so none is set). -/
def responseDataBlock (env : Env) (ext : Ext) (e : GRPCEndpointExpr)
    (sd : ServiceData) (seen svcScope : List String) :
    ResponseData × ServiceData × List String × List String :=
  let responseAn := protoBufAnalyzer e.response.message sd.pkgName
  let resultAn := resultAnalyzer e sd
  let h1 := extractMetadata env ext e.response.headers resultAn svcScope
  let h2 := extractMetadata env ext e.response.trailers resultAn h1.2
  let hdrs := h1.1
  let trlrs := h2.1
  let c1 := buildResponseConvertData env ext responseAn resultAn hdrs trlrs e sd true
  let c2 := buildResponseConvertData env ext responseAn resultAn hdrs trlrs e c1.2 false
  let coll :=
    if !(isEmptyType e.response.message.type) || !e.methodExpr.isStreaming then
      let r := collectInto env ext e.response.message sd.pkgName c2.2 seen
      (r.1, r.2.1, r.2.2)
    else (none, c2.2, seen)
  ({ statusCode := statusCodeToGRPCConst e.response.statusCode,
     description := e.response.description, message := coll.1,
     headers := hdrs, trailers := trlrs,
     serverConvert := c1.1, clientConvert := c2.1 },
   coll.2.1, coll.2.2, h2.2)

/-- Translation of the security-requirement gathering of analyze
(service_data.go lines 533-551): schemes are split by carrier into
message-encoded and metadata-encoded lists. -/
def gatherSchemes (e : GRPCEndpointExpr) (md : MethodData) :
    List SchemeData × List SchemeData :=
  e.requirements.foldl
    (fun acc req =>
      req.schemes.foldl
        (fun (acc : List SchemeData × List SchemeData) sch =>
          let s0 := svcScheme md.requirements sch.schemeName
          let s := { s0 with inLoc := sch.inLoc }
          if s.inLoc == "message" then (appendScheme acc.1 s, acc.2)
          else (acc.1, appendScheme acc.2 s))
        acc)
    ([], [])

/-- Translation of the endpoint-append and stream-attachment tail of the
analyze loop (service_data.go lines 570-574): the endpoint is appended to
the service data; for streaming endpoints the server and client stream
data are then built — they look the endpoint up in the service data — and
attached to it (Go mutates the appended endpoint in place; here the
appended entry is replaced). -/
def attachStreams (env : Env) (ext : Ext) (e : GRPCEndpointExpr)
    (ed : EndpointData) (sd : ServiceData) : ServiceData :=
  let sd3 := { sd with endpoints := sd.endpoints ++ [ed] }
  if e.methodExpr.isStreaming then
    let b1 := buildStreamData env ext e sd3 true
    let b2 := buildStreamData env ext e b1.2 false
    let ed1 := { ed with serverStream := b1.1, clientStream := b2.1 }
    { b2.2 with endpoints := b2.2.endpoints.dropLast ++ [ed1] }
  else sd3

/-- Translation of the per-endpoint body of analyze (service_data.go lines
420-575): protocol buffer message conversion, reference resolution, error
building, request and response blocks, scheme gathering, endpoint assembly
and, for streaming endpoints, the two stream data (built after the
endpoint is appended, then attached to it — Go mutates the appended
endpoint in place). -/
def analyzeEndpoint (ext : Ext) (svc : SvcData)
    (st : Env × ServiceData × List String × List String)
    (e : GRPCEndpointExpr) : Env × ServiceData × List String × List String :=
  let env := st.1
  let sd := st.2.1
  let seen := st.2.2.1
  let svcScope := st.2.2.2
  let en := protoBufify e.name true
  let m1 := makeProtoBufMessage env e.request (en ++ "Request")
  let m2 :=
    if !(isEmptyType e.methodExpr.streamingPayload.type) then
      makeProtoBufMessage m1.2 e.streamingRequest (en ++ "StreamingRequest")
    else (e.streamingRequest, m1.2)
  let m3 := makeProtoBufMessage m2.2 e.response.message (en ++ "Response")
  let env1 := m3.2
  let e1 := { e with request := m1.1, streamingRequest := m2.1,
                     response := { e.response with message := m3.1 } }
  let md := svcMethod svc e1.name
  let payloadAn := serviceAnalyzer e1.methodExpr.payload svc.pkgName
  let resultAn0 := serviceAnalyzer e1.methodExpr.result svc.pkgName
  let payloadRef :=
    if isEmptyType e1.methodExpr.payload.type then "" else payloadAn.ref env1 true
  let resultRef :=
    if isEmptyType e1.methodExpr.result.type then "" else resultAn0.ref env1 true
  let viewedResultRef := (md.viewedResult.map ViewedResultData.fullRef).getD ""
  let errors := buildErrorsData e1 sd
  let rb := requestDataBlock env1 ext e1 payloadAn ext.exampleF sd seen svcScope
  let request := rb.1
  let pb := responseDataBlock env1 ext e1 rb.2.1 rb.2.2.1 rb.2.2.2
  let response := pb.1
  let sd2 := pb.2.1
  let seen2 := pb.2.2.1
  let svcScope2 := pb.2.2.2
  let schemes := gatherSchemes e1 md
  let ed : EndpointData :=
    { serviceName := svc.name, pkgName := sd2.pkgName, servicePkgName := svc.pkgName,
      method := md, payloadRef := payloadRef, resultRef := resultRef,
      viewedResultRef := viewedResultRef, request := request, response := response,
      messageSchemes := schemes.1, metadataSchemes := schemes.2, errors := errors,
      serverStruct := sd2.serverStruct, serverInterface := sd2.serverInterface,
      serverStream := none,
      clientStruct := sd2.clientStruct, clientInterface := sd2.clientInterface,
      clientStream := none }
  (env1, attachStreams env1 ext e1 ed sd2, seen2, svcScope2)

/-- Lookup of the service data registry (service.Services.Get), an input
to the translated file. -/
def lookupSvc (root : Root) (n : String) : SvcData :=
  (root.svcRegistry.lookup n).getD
    { name := n, description := "", pkgName := goify n false,
      structName := goify n true, viewsPkg := "views", scope := [], methods := [] }

/-- Translation of ServicesData.analyze (service_data.go): creates the
data necessary to render the code of the given service, driving the
per-endpoint body over all gRPC endpoints with the shared
per-service state (environment, service data, seen set, naming scope). -/
def analyze (root : Root) (ext : Ext) (gs : GRPCServiceExpr) : ServiceData :=
  let svc := lookupSvc root gs.name
  let svcVarN := goify svc.name true
  let sd0 : ServiceData :=
    { service := svc, name := svc.name, description := svc.description,
      pkgName := "pb",
      endpoints := [], messages := [],
      serverStruct := "Server", clientStruct := "Client",
      serverInit := "New", clientInit := "NewClient",
      serverInterface := svcVarN ++ "Server",
      clientInterface := svcVarN ++ "Client",
      clientInterfaceInit := "pb" ++ ".New" ++ svcVarN ++ "Client",
      transformHelpers := [], validations := [], scope := [] }
  let final := gs.grpcEndpoints.foldl (analyzeEndpoint ext svc)
    (root.env, sd0, [], svc.scope)
  final.2.1

/-- ServicesData (service_data.go): the per-run memoization map from
service name to computed service data. -/
abbrev ServicesData := List (String × ServiceData)

/-- Translation of ServicesData.Get (service_data.go): retrieves the
transport data for the service with the given name, computing and caching
it on first use; nil when no gRPC service with that name exists.  The Go
method mutates the receiver map; the updated map is returned. -/
def ServicesData.get (d : ServicesData) (root : Root) (ext : Ext) (n : String) :
    Option ServiceData × ServicesData :=
  match d.lookup n with
  | some data => (some data, d)
  | none =>
    match root.grpcServices.find? (fun gs => gs.name == n) with
    | none => (none, d)
    | some gs =>
      let sd := analyze root ext gs
      (some sd, (n, sd) :: d)


theorem cm_none (env : Env) (ext : Ext) (an : Analyzer) (seen : List String)
    (h : an.attr = none) : collectMessages env ext an seen = ([], [], []) := by
  rw [collectMessages.eq_def, h]

theorem cm_prim (env : Env) (ext : Ext) (an : Analyzer) (seen : List String)
    (k : PrimKind) (d : String) (h : an.attr = some (Attr.mk (.primitive k) d)) :
    collectMessages env ext an seen = ([], [], []) := by
  rw [collectMessages.eq_def, h]

theorem cm_empty (env : Env) (ext : Ext) (an : Analyzer) (seen : List String)
    (d : String) (h : an.attr = some (Attr.mk .empty d)) :
    collectMessages env ext an seen = ([], [], []) := by
  rw [collectMessages.eq_def, h]

theorem cm_seen (env : Env) (ext : Ext) (an : Analyzer) (seen : List String)
    (n d : String) (ha : an.attr = some (Attr.mk (.userT n) d))
    (h : seen.contains n = true) :
    collectMessages env ext an seen = ([], [], []) := by
  rw [collectMessages.eq_def, ha]
  simp only [h]
  rfl

theorem cm_user (env : Env) (ext : Ext) (an : Analyzer) (seen : List String)
    (n d : String) (da : Attr)
    (ha : an.attr = some (Attr.mk (.userT n) d))
    (h : seen.contains n = false) (hl : env.lookup n = some da) :
    collectMessages env ext an seen =
      (⟨n, protoBufMessageName (Attr.mk (.userT n) d), da.description,
         ext.defF (an.dup da true), an.ref env true, .userT n⟩ ::
         (collectMessages env ext (an.dup da true) (n :: seen)).1,
       n :: (collectMessages env ext (an.dup da true) (n :: seen)).2.1,
       (if ext.vcode an "message" = "" then []
        else [⟨"Validate" ++ protoBufMessageName (Attr.mk (.userT n) d),
               ext.vcode an "message", "message",
               protoBufMessageName (Attr.mk (.userT n) d), an.ref env true⟩]) ++
         (collectMessages env ext (an.dup da true) (n :: seen)).2.2) := by
  rw [collectMessages.eq_def, ha]
  simp only [h, Bool.false_eq_true, dite_false]
  rw [hl]

theorem cm_user_nodef (env : Env) (ext : Ext) (an : Analyzer) (seen : List String)
    (n d : String)
    (ha : an.attr = some (Attr.mk (.userT n) d))
    (h : seen.contains n = false) (hl : env.lookup n = none) :
    collectMessages env ext an seen =
      ([⟨n, protoBufMessageName (Attr.mk (.userT n) d), "", "",
         an.ref env true, .userT n⟩], [n],
       (if ext.vcode an "message" = "" then []
        else [⟨"Validate" ++ protoBufMessageName (Attr.mk (.userT n) d),
               ext.vcode an "message", "message",
               protoBufMessageName (Attr.mk (.userT n) d), an.ref env true⟩])) := by
  rw [collectMessages.eq_def, ha]
  simp only [h, Bool.false_eq_true, dite_false]
  rw [hl]

theorem cm_object (env : Env) (ext : Ext) (an : Analyzer) (seen : List String)
    (fields : List NamedAttr) (d : String)
    (ha : an.attr = some (Attr.mk (.object fields) d)) :
    collectMessages env ext an seen = collectMessagesFields env ext an fields seen := by
  rw [collectMessages.eq_def, ha]

theorem cm_arr (env : Env) (ext : Ext) (an : Analyzer) (seen : List String)
    (elem : Attr) (d : String)
    (ha : an.attr = some (Attr.mk (.arr elem) d)) :
    collectMessages env ext an seen = collectMessages env ext (an.dup elem true) seen := by
  rw [collectMessages.eq_def, ha]

theorem cm_map (env : Env) (ext : Ext) (an : Analyzer) (seen : List String)
    (k e : Attr) (d : String)
    (ha : an.attr = some (Attr.mk (.mapT k e) d)) :
    collectMessages env ext an seen =
      ((collectMessages env ext (an.dup k true) seen).1 ++
        (collectMessages env ext (an.dup e true)
          ((collectMessages env ext (an.dup k true) seen).2.1 ++ seen)).1,
       (collectMessages env ext (an.dup k true) seen).2.1 ++
        (collectMessages env ext (an.dup e true)
          ((collectMessages env ext (an.dup k true) seen).2.1 ++ seen)).2.1,
       (collectMessages env ext (an.dup k true) seen).2.2 ++
        (collectMessages env ext (an.dup e true)
          ((collectMessages env ext (an.dup k true) seen).2.1 ++ seen)).2.2) := by
  rw [collectMessages.eq_def, ha]

theorem cmf_nil (env : Env) (ext : Ext) (an : Analyzer) (seen : List String) :
    collectMessagesFields env ext an [] seen = ([], [], []) := by
  rw [collectMessagesFields.eq_def]

theorem cmf_cons (env : Env) (ext : Ext) (an : Analyzer) (seen : List String)
    (f : NamedAttr) (rest : List NamedAttr) :
    collectMessagesFields env ext an (f :: rest) seen =
      ((collectMessages env ext (an.dup f.attr true) seen).1 ++
        (collectMessagesFields env ext an rest
          ((collectMessages env ext (an.dup f.attr true) seen).2.1 ++ seen)).1,
       (collectMessages env ext (an.dup f.attr true) seen).2.1 ++
        (collectMessagesFields env ext an rest
          ((collectMessages env ext (an.dup f.attr true) seen).2.1 ++ seen)).2.1,
       (collectMessages env ext (an.dup f.attr true) seen).2.2 ++
        (collectMessagesFields env ext an rest
          ((collectMessages env ext (an.dup f.attr true) seen).2.1 ++ seen)).2.2) := by
  rw [collectMessagesFields.eq_def]

/-- Names of collected message descriptors. -/
def msgNames (r : List UserTypeData × List String × List ValidationData) : List String :=
  r.1.map UserTypeData.name

theorem collectMessages_spec (env : Env) (ext : Ext) (an : Analyzer) (seen : List String) :
    msgNames (collectMessages env ext an seen) = (collectMessages env ext an seen).2.1 ∧
    (collectMessages env ext an seen).2.1.Nodup ∧
    (∀ n ∈ (collectMessages env ext an seen).2.1, n ∉ seen) := by
  induction an, seen using collectMessages.induct env ext with
  | motive2 an fs seen =>
    exact msgNames (collectMessagesFields env ext an fs seen) =
        (collectMessagesFields env ext an fs seen).2.1 ∧
      (collectMessagesFields env ext an fs seen).2.1.Nodup ∧
      (∀ n ∈ (collectMessagesFields env ext an fs seen).2.1, n ∉ seen)
  | case1 an seen h =>
    simp [cm_none env ext an seen h, msgNames]
  | case2 an seen n d ha hseen =>
    simp [cm_seen env ext an seen n d ha hseen, msgNames]
  | case3 an seen n d ha hseen da hlook ih =>
    have hsf : seen.contains n = false := by simpa using hseen
    have hns : n ∉ seen := (contains_false_iff _ _).mp hsf
    obtain ⟨ih1, ih2, ih3⟩ := ih
    rw [cm_user env ext an seen n d da ha hsf hlook]
    refine ⟨?_, ?_, ?_⟩
    · simpa [msgNames] using ih1
    · refine List.Nodup.cons ?_ ih2
      intro hmem
      exact (ih3 n hmem) (List.mem_cons_self n seen)
    · intro m hm
      rcases List.mem_cons.mp hm with rfl | hm2
      · exact hns
      · intro hms
        exact (ih3 m hm2) (List.mem_cons_of_mem _ hms)
  | case4 an seen n d ha hseen hlook =>
    have hsf : seen.contains n = false := by simpa using hseen
    have hns : n ∉ seen := (contains_false_iff _ _).mp hsf
    rw [cm_user_nodef env ext an seen n d ha hsf hlook]
    refine ⟨by simp [msgNames], by simp, ?_⟩
    intro m hm
    rcases List.mem_singleton.mp hm with rfl
    exact hns
  | case5 an seen fields d ha ih =>
    rw [cm_object env ext an seen fields d ha]
    exact ih
  | case6 an seen elem d ha ih =>
    rw [cm_arr env ext an seen elem d ha]
    exact ih
  | case7 an seen k e d ha r1 ih1 ih2 =>
    obtain ⟨a1, b1, c1⟩ := ih1
    obtain ⟨a2, b2, c2⟩ := ih2
    rw [cm_map env ext an seen k e d ha]
    refine ⟨?_, ?_, ?_⟩
    · simp only [msgNames, List.map_append] at a1 a2 ⊢
      rw [a1, a2]
    · refine List.Nodup.append b1 b2 ?_
      intro m hm1 hm2
      exact (c2 m hm2) (List.mem_append.mpr (Or.inl hm1))
    · intro m hm
      rcases List.mem_append.mp hm with hm1 | hm2
      · exact c1 m hm1
      · intro hms
        exact (c2 m hm2) (List.mem_append.mpr (Or.inr hms))
  | case8 an seen k d ha =>
    simp [cm_prim env ext an seen k d ha, msgNames]
  | case9 an seen d ha =>
    simp [cm_empty env ext an seen d ha, msgNames]
  | case10 an seen =>
    simp [cmf_nil, msgNames]
  | case11 an seen f rest r1 ih1 ih2 =>
    obtain ⟨a1, b1, c1⟩ := ih1
    obtain ⟨a2, b2, c2⟩ := ih2
    rw [cmf_cons env ext an seen f rest]
    refine ⟨?_, ?_, ?_⟩
    · simp only [msgNames, List.map_append] at a1 a2 ⊢
      rw [a1, a2]
    · refine List.Nodup.append b1 b2 ?_
      intro m hm1 hm2
      exact (c2 m hm2) (List.mem_append.mpr (Or.inl hm1))
    · intro m hm
      rcases List.mem_append.mp hm with hm1 | hm2
      · exact c1 m hm1
      · intro hms
        exact (c2 m hm2) (List.mem_append.mpr (Or.inr hms))


/-- The collection depends on the seen set only through membership: any two
seen lists answering membership identically produce identical results. -/
theorem collectMessages_seen_ext (env : Env) (ext : Ext) (an : Analyzer)
    (seen : List String) :
    ∀ seen2, (∀ x, seen.contains x = seen2.contains x) →
      collectMessages env ext an seen = collectMessages env ext an seen2 := by
  induction an, seen using collectMessages.induct env ext with
  | motive2 an fs seen =>
    exact ∀ seen2, (∀ x, seen.contains x = seen2.contains x) →
        collectMessagesFields env ext an fs seen =
          collectMessagesFields env ext an fs seen2
  | case1 an seen h =>
    intro seen2 hq
    rw [cm_none env ext an seen h, cm_none env ext an seen2 h]
  | case2 an seen n d ha hseen =>
    intro seen2 hq
    rw [cm_seen env ext an seen n d ha hseen,
        cm_seen env ext an seen2 n d ha (by rw [← hq]; exact hseen)]
  | case3 an seen n d ha hseen da hlook ih =>
    intro seen2 hq
    have h1 : seen.contains n = false := by simpa using hseen
    have h2 : seen2.contains n = false := by rw [← hq]; exact h1
    have hrec := ih (n :: seen2) (by
      intro x
      rw [List.contains_cons, List.contains_cons, hq x])
    rw [cm_user env ext an seen n d da ha h1 hlook,
        cm_user env ext an seen2 n d da ha h2 hlook, hrec]
  | case4 an seen n d ha hseen hlook =>
    intro seen2 hq
    have h1 : seen.contains n = false := by simpa using hseen
    have h2 : seen2.contains n = false := by rw [← hq]; exact h1
    rw [cm_user_nodef env ext an seen n d ha h1 hlook,
        cm_user_nodef env ext an seen2 n d ha h2 hlook]
  | case5 an seen fields d ha ih =>
    intro seen2 hq
    rw [cm_object env ext an seen fields d ha, cm_object env ext an seen2 fields d ha]
    exact ih seen2 hq
  | case6 an seen elem d ha ih =>
    intro seen2 hq
    rw [cm_arr env ext an seen elem d ha, cm_arr env ext an seen2 elem d ha]
    exact ih seen2 hq
  | case7 an seen k e d ha r1 ih1 ih2 =>
    intro seen2 hq
    have e1 := ih1 seen2 hq
    have e2 := ih2 ((collectMessages env ext (an.dup k true) seen2).2.1 ++ seen2) (by
      intro x
      rw [contains_append, contains_append, ← e1, hq x])
    rw [cm_map env ext an seen k e d ha, cm_map env ext an seen2 k e d ha, e2, e1]
  | case8 an seen k d ha =>
    intro seen2 hq
    rw [cm_prim env ext an seen k d ha, cm_prim env ext an seen2 k d ha]
  | case9 an seen d ha =>
    intro seen2 hq
    rw [cm_empty env ext an seen d ha, cm_empty env ext an seen2 d ha]
  | case10 an seen =>
    intros
    rw [cmf_nil, cmf_nil]
  | case11 an seen f rest r1 ih1 ih2 =>
    intro seen2 hq
    have e1 := ih1 seen2 hq
    have e2 := ih2 ((collectMessages env ext (an.dup f.attr true) seen2).2.1 ++ seen2) (by
      intro x
      rw [contains_append, contains_append, ← e1, hq x])
    rw [cmf_cons env ext an seen f rest, cmf_cons env ext an seen2 f rest, e2, e1]


def MessagesInv (msgs : List UserTypeData) (seen : List String) : Prop :=
  (msgs.map UserTypeData.name).Nodup ∧
  ∀ n ∈ msgs.map UserTypeData.name, n ∈ seen

theorem collectInto_inv (env : Env) (ext : Ext) (att : Attr) (pkg : String)
    (sd : ServiceData) (seen : List String)
    (h : MessagesInv sd.messages seen) :
    MessagesInv (collectInto env ext att pkg sd seen).2.1.messages
      (collectInto env ext att pkg sd seen).2.2 := by
  obtain ⟨h1, h2⟩ := h
  obtain ⟨s1, s2, s3⟩ :=
    collectMessages_spec env ext (protoBufAnalyzer att pkg) seen
  rw [msgNames] at s1
  simp only [collectInto, MessagesInv, List.map_append]
  constructor
  · refine List.Nodup.append h1 ?_ ?_
    · rw [s1]; exact s2
    · intro m hm1 hm2
      rw [s1] at hm2
      exact (s3 m hm2) (h2 m hm1)
  · intro m hm
    rcases List.mem_append.mp hm with hm1 | hm2
    · exact List.mem_append.mpr (Or.inr (h2 m hm1))
    · rw [s1] at hm2
      exact List.mem_append.mpr (Or.inl hm2)

theorem buildConvertData_messages (env : Env) (ext : Ext) (s t : Analyzer)
    (sv tv : String) (p : Bool) (sd : ServiceData) (fn : Option (InitData → InitData)) :
    (buildConvertData env ext s t sv tv p sd fn).2.messages = sd.messages := by
  unfold buildConvertData
  cases htr : ext.transform s t sv tv p with
  | error e => simp [htr]
  | ok v => cases v; simp [htr]

theorem buildRequestConvertData_messages (env : Env) (ext : Ext)
    (requestAn payloadAn : Analyzer) (md : List MetadataData)
    (e : GRPCEndpointExpr) (sd : ServiceData) (svr : Bool) :
    (buildRequestConvertData env ext requestAn payloadAn md e sd svr).2.messages =
      sd.messages := by
  unfold buildRequestConvertData
  split
  · rfl
  · split
    · exact buildConvertData_messages ..
    · exact buildConvertData_messages ..

theorem buildResponseConvertData_messages (env : Env) (ext : Ext)
    (responseAn resultAn : Analyzer) (hdrs trlrs : List MetadataData)
    (e : GRPCEndpointExpr) (sd : ServiceData) (svr : Bool) :
    (buildResponseConvertData env ext responseAn resultAn hdrs trlrs e sd svr).2.messages =
      sd.messages := by
  unfold buildResponseConvertData
  split
  · rfl
  · split
    · exact buildConvertData_messages ..
    · exact buildConvertData_messages ..

theorem buildStreamData_messages (env : Env) (ext : Ext) (e : GRPCEndpointExpr)
    (sd : ServiceData) (svr : Bool) :
    (buildStreamData env ext e sd svr).2.messages = sd.messages := by
  unfold buildStreamData
  cases hep : sd.endpoint e.name with
  | none => rfl
  | some ed =>
    dsimp only
    by_cases hs : svr <;> simp only [hs, if_true, if_false] <;>
      split_ifs <;> simp [buildConvertData_messages]

theorem requestDataBlock_inv (env : Env) (ext : Ext) (e : GRPCEndpointExpr)
    (payloadAn : Analyzer) (exampleRnd : Attr → String) (sd : ServiceData)
    (seen svcScope : List String)
    (h : MessagesInv sd.messages seen) :
    MessagesInv (requestDataBlock env ext e payloadAn exampleRnd sd seen svcScope).2.1.messages
      (requestDataBlock env ext e payloadAn exampleRnd sd seen svcScope).2.2.1 := by
  have hc2 : (buildRequestConvertData env ext (protoBufAnalyzer e.request sd.pkgName)
      payloadAn (extractMetadata env ext e.metadata payloadAn svcScope).1 e
      (buildRequestConvertData env ext (protoBufAnalyzer e.request sd.pkgName)
        payloadAn (extractMetadata env ext e.metadata payloadAn svcScope).1 e sd true).2
      false).2.messages = sd.messages := by
    rw [buildRequestConvertData_messages, buildRequestConvertData_messages]
  by_cases hse : isEmptyType e.streamingRequest.type = true
  · simp only [requestDataBlock, hse, if_true]
    exact collectInto_inv env ext e.request sd.pkgName _ seen
      (by rw [MessagesInv, hc2]; exact h)
  · simp only [requestDataBlock, hse, if_false]
    exact collectInto_inv env ext e.streamingRequest sd.pkgName _ seen
      (by rw [MessagesInv, hc2]; exact h)

theorem responseDataBlock_inv (env : Env) (ext : Ext) (e : GRPCEndpointExpr)
    (sd : ServiceData) (seen svcScope : List String)
    (h : MessagesInv sd.messages seen) :
    MessagesInv (responseDataBlock env ext e sd seen svcScope).2.1.messages
      (responseDataBlock env ext e sd seen svcScope).2.2.1 := by
  have hc2 : (buildResponseConvertData env ext (protoBufAnalyzer e.response.message sd.pkgName)
      (resultAnalyzer e sd)
      (extractMetadata env ext e.response.headers (resultAnalyzer e sd) svcScope).1
      (extractMetadata env ext e.response.trailers (resultAnalyzer e sd)
        (extractMetadata env ext e.response.headers (resultAnalyzer e sd) svcScope).2).1 e
      (buildResponseConvertData env ext (protoBufAnalyzer e.response.message sd.pkgName)
        (resultAnalyzer e sd)
        (extractMetadata env ext e.response.headers (resultAnalyzer e sd) svcScope).1
        (extractMetadata env ext e.response.trailers (resultAnalyzer e sd)
          (extractMetadata env ext e.response.headers (resultAnalyzer e sd) svcScope).2).1 e
        sd true).2 false).2.messages = sd.messages := by
    rw [buildResponseConvertData_messages, buildResponseConvertData_messages]
  by_cases hcond : (!(isEmptyType e.response.message.type) || !e.methodExpr.isStreaming) = true
  · simp only [responseDataBlock, hcond, if_true]
    exact collectInto_inv env ext e.response.message sd.pkgName _ seen
      (by rw [MessagesInv, hc2]; exact h)
  · simp only [responseDataBlock, hcond, if_false]
    simpa [MessagesInv, hc2] using h



theorem attachStreams_messages (env : Env) (ext : Ext) (e : GRPCEndpointExpr)
    (ed : EndpointData) (sd : ServiceData) :
    (attachStreams env ext e ed sd).messages = sd.messages := by
  unfold attachStreams
  by_cases hs : e.methodExpr.isStreaming = true <;>
    simp [hs, buildStreamData_messages]

set_option maxHeartbeats 1000000 in
theorem analyzeEndpoint_inv (ext : Ext) (svc : SvcData)
    (st : Env × ServiceData × List String × List String) (e : GRPCEndpointExpr)
    (h : MessagesInv st.2.1.messages st.2.2.1) :
    MessagesInv (analyzeEndpoint ext svc st e).2.1.messages
      (analyzeEndpoint ext svc st e).2.2.1 := by
  simp only [analyzeEndpoint]
  rw [attachStreams_messages]
  exact responseDataBlock_inv _ _ _ _ _ _ (requestDataBlock_inv _ _ _ _ _ _ _ _ h)

set_option maxHeartbeats 1000000 in
theorem analyze_fold_inv (ext : Ext) (svc : SvcData)
    (es : List GRPCEndpointExpr) :
    ∀ (st : Env × ServiceData × List String × List String),
      MessagesInv st.2.1.messages st.2.2.1 →
      MessagesInv (es.foldl (analyzeEndpoint ext svc) st).2.1.messages
        (es.foldl (analyzeEndpoint ext svc) st).2.2.1 := by
  induction es with
  | nil => intro st h; exact h
  | cons e rest ih =>
    intro st h
    exact ih (analyzeEndpoint ext svc st e) (analyzeEndpoint_inv ext svc st e h)

/-- C2: collectMessages terminates on every input — it is a total Lean
function, defined by well-founded recursion on the pair (number of
environment type names not yet seen, size of the bound attribute), which
is exactly the termination argument for the Go recursion with its shared
seen-set cycle guard, covering self-referential and mutually-referential
user types alike — and within one service compilation (the single seen
set threaded through the whole analyze loop) each distinct underlying
type name appears at most once across all UserTypeData entries appended
to ServiceData.Messages: the name list is pairwise distinct. -/
theorem analyze_messages_nodup (root : Root) (ext : Ext) (gs : GRPCServiceExpr) :
    ((analyze root ext gs).messages.map UserTypeData.name).Nodup := by
  unfold analyze
  exact (analyze_fold_inv ext (lookupSvc root gs.name) gs.grpcEndpoints _
    (by constructor <;> simp [MessagesInv])).1


/-- Concrete externals for witnesses: trivial validation/example renderers
and a transform that always succeeds (compatible shapes). -/
def extOk : Ext :=
  { vcode := fun _ _ => "", exampleF := fun _ => "", defaultV := fun _ => "",
    defF := fun _ => "", transform := fun _ _ _ _ _ => .ok ("", []) }

/-- Externals whose transform always fails, standing for a pair of
structurally incompatible shapes (§4.4). -/
def extMismatch : Ext :=
  { extOk with transform := fun _ _ _ _ _ => .error "incompatible shapes" }

/-- A small concrete service-side input model. -/
def svcFix : SvcData :=
  { name := "calc", description := "", pkgName := "calcsvc", structName := "Calc",
    viewsPkg := "calcviews", scope := [], methods := [] }

/-- An empty concrete service data accumulator. -/
def sdFix : ServiceData :=
  { service := svcFix, pkgName := "pb", name := "calc", description := "",
    endpoints := [], messages := [],
    serverStruct := "Server", clientStruct := "Client",
    serverInit := "New", clientInit := "NewClient",
    serverInterface := "CalcServer", clientInterface := "CalcClient",
    clientInterfaceInit := "pb.NewCalcClient",
    transformHelpers := [], validations := [], scope := [] }

/-- C1: evaluation of buildConvertData at a failing input — a source whose
shape is incompatible with the target, so that protoBufTransform errors.
The call returns a nil ConvertData and leaves the service data untouched:
the error is printed and swallowed (the function's return type has no error
channel at all), so the mismatch never fails the service compilation,
contradicting the claim that the failure propagates. -/
theorem buildConvertData_swallows_transform_error :
    buildConvertData [] extMismatch
      (serviceAnalyzer (Attr.mk (.primitive .int) "") "calcsvc")
      (protoBufAnalyzer (Attr.mk (.userT "AddRequest") "") "pb")
      "message" "payload" false sdFix none = (none, sdFix) := by
  rfl

/-- C6: every metadata entry produced by extractMetadata has
pointer = true only if it is not required and its underlying type is
primitive (the pointer flag is the conjunction of the bound analyzer's
nullability and the primitive test, service_data.go lines 961-963). -/
theorem extractMetadata_pointer_invariant (env : Env) (ext : Ext)
    (a : List MappedField) (serviceAn : Analyzer) (scope : List String) :
    ∀ m ∈ (extractMetadata env ext a serviceAn scope).1,
      m.pointer = true → m.required = false ∧ isPrimitive env m.typ = true := by
  induction a generalizing scope with
  | nil =>
    intro m hm
    simp [extractMetadata] at hm
  | cons f rest ih =>
    intro m hm hp
    rw [extractMetadata] at hm
    simp only [List.mem_cons] at hm
    rcases hm with rfl | hm2
    · simp only [Analyzer.isPointer, Analyzer.dup] at hp
      simp only [Bool.and_eq_true, Bool.not_eq_true'] at hp
      exact ⟨hp.1, hp.2⟩
    · exact ih _ m hm2 hp

/-- Witness input for the pointer invariant: one optional primitive field. -/
def mfFix : MappedField :=
  { name := "token", elem := "x-token", required := false,
    attr := Attr.mk (.primitive .string) "" }

/-- C6 witness: on a concrete optional string metadata field the produced
entry has pointer set, and the theorem yields that it is optional with a
primitive type. -/
theorem extractMetadata_pointer_invariant_witness :
    ((extractMetadata [] extOk [mfFix] (serviceAnalyzer (Attr.mk (.object []) "") "calcsvc") []).1.head?.map
        MetadataData.pointer = some true) ∧
    ∀ m ∈ (extractMetadata [] extOk [mfFix] (serviceAnalyzer (Attr.mk (.object []) "") "calcsvc") []).1,
      m.pointer = true → m.required = false ∧ isPrimitive [] m.typ = true :=
  ⟨rfl, extractMetadata_pointer_invariant [] extOk [mfFix] _ []⟩

/-- C9: when the collect closure of analyze is handed an attribute whose
type is a user type not yet seen, the collected list is non-empty and its
head describes that very type, so the Go `msgs[0]` access is in range and
the closure returns the top-level message. -/
theorem collect_head_describes_top_type (env : Env) (ext : Ext)
    (att : Attr) (pkg : String) (sd : ServiceData) (seen : List String)
    (n d : String) (hatt : att = Attr.mk (.userT n) d)
    (hseen : seen.contains n = false) :
    ∃ utd, (collectInto env ext att pkg sd seen).1 = some utd ∧
      utd.name = n ∧ utd.typ = .userT n := by
  subst hatt
  have ha : (protoBufAnalyzer (Attr.mk (.userT n) d) pkg).attr =
      some (Attr.mk (.userT n) d) := rfl
  cases hlook : env.lookup n with
  | some da =>
    have heq : (collectInto env ext (Attr.mk (.userT n) d) pkg sd seen).1 =
        some ⟨n, protoBufMessageName (Attr.mk (.userT n) d), da.description,
          ext.defF ((protoBufAnalyzer (Attr.mk (.userT n) d) pkg).dup da true),
          (protoBufAnalyzer (Attr.mk (.userT n) d) pkg).ref env true, .userT n⟩ := by
      simp only [collectInto, cm_user env ext _ seen n d da ha hseen hlook]
      rfl
    exact ⟨_, heq, rfl, rfl⟩
  | none =>
    have heq : (collectInto env ext (Attr.mk (.userT n) d) pkg sd seen).1 =
        some ⟨n, protoBufMessageName (Attr.mk (.userT n) d), "", "",
          (protoBufAnalyzer (Attr.mk (.userT n) d) pkg).ref env true, .userT n⟩ := by
      simp only [collectInto, cm_user_nodef env ext _ seen n d ha hseen hlook]
      rfl
    exact ⟨_, heq, rfl, rfl⟩

/-- C9 witness: a concrete unseen user type collects to a non-empty list
headed by its own descriptor. -/
theorem collect_head_describes_top_type_witness :
    (Attr.mk (.userT "AddRequest") "" : Attr) = Attr.mk (.userT "AddRequest") "" ∧
    ([] : List String).contains "AddRequest" = false ∧
    ∃ utd, (collectInto [] extOk (Attr.mk (.userT "AddRequest") "") "pb" sdFix []).1 = some utd ∧
      utd.name = "AddRequest" ∧ utd.typ = .userT "AddRequest" :=
  ⟨rfl, rfl,
    collect_head_describes_top_type [] extOk (Attr.mk (.userT "AddRequest") "") "pb"
      sdFix [] "AddRequest" "" rfl rfl⟩

/-- C7: ServicesData.Get is memoized — a name already in the map is
returned as cached without consulting the input model at all (so a
mutated model cannot change it and analyze is not re-run); a missing
service yields nil with the map unchanged; and once a first call has
computed and cached a value, any later call for that name returns exactly
that value and leaves the map unchanged, for any model and externals. -/
theorem ServicesData.get_memoized (d : ServicesData) (root root2 : Root)
    (ext ext2 : Ext) (n : String) :
    (∀ v, d.lookup n = some v → ServicesData.get d root ext n = (some v, d)) ∧
    (d.lookup n = none →
      root.grpcServices.find? (fun gs => gs.name == n) = none →
      ServicesData.get d root ext n = (none, d)) ∧
    (∀ r1 d1, ServicesData.get d root ext n = (some r1, d1) →
      ServicesData.get d1 root2 ext2 n = (some r1, d1)) := by
  refine ⟨?_, ?_, ?_⟩
  · intro v hv
    unfold ServicesData.get
    rw [hv]
  · intro h1 h2
    unfold ServicesData.get
    rw [h1, h2]
  · intro r1 d1 hget
    unfold ServicesData.get at hget ⊢
    cases hl : d.lookup n with
    | some v =>
      rw [hl] at hget
      have h1 : some v = some r1 := congrArg Prod.fst hget
      have h2 : d = d1 := congrArg Prod.snd hget
      cases h1
      subst h2
      rw [hl]
    | none =>
      rw [hl] at hget
      cases hf : root.grpcServices.find? (fun gs => gs.name == n) with
      | none =>
        rw [hf] at hget
        cases hget
      | some gs =>
        rw [hf] at hget
        have h1 : some (analyze root ext gs) = some r1 := congrArg Prod.fst hget
        have h2 : ((n, analyze root ext gs) :: d : ServicesData) = d1 :=
          congrArg Prod.snd hget
        cases h1
        subst h2
        simp [List.lookup]


/-- A gRPC service expression with no endpoints (analyze on it is the
plain initial service data). -/
def gsFix : GRPCServiceExpr := { name := "calc", grpcEndpoints := [] }

/-- Concrete input model holding the one service. -/
def rootFix : Root :=
  { grpcServices := [gsFix], svcRegistry := [("calc", svcFix)], env := [] }

/-- A second, different input model (stands for a mutated model between
two Get calls). -/
def root2Fix : Root := { grpcServices := [], svcRegistry := [], env := [] }

/-- C7 witness: a cached name is served from the cache against a different
model; a missing name yields nil; and a computed value is returned
unchanged by a second call under a mutated model. -/
theorem get_memoized_witness :
    (ServicesData.get [("calc", analyze rootFix extOk gsFix)] root2Fix extOk "calc" =
      (some (analyze rootFix extOk gsFix), [("calc", analyze rootFix extOk gsFix)])) ∧
    (ServicesData.get [] rootFix extOk "nosuch" = (none, [])) ∧
    (ServicesData.get [("calc", analyze rootFix extOk gsFix)] root2Fix extOk "calc" =
      (some (analyze rootFix extOk gsFix), [("calc", analyze rootFix extOk gsFix)])) := by
  refine ⟨?_, ?_, ?_⟩
  · exact (ServicesData.get_memoized [("calc", analyze rootFix extOk gsFix)]
      root2Fix rootFix extOk extOk "calc").1 _ rfl
  · exact (ServicesData.get_memoized [] rootFix root2Fix extOk extOk "nosuch").2.1 rfl rfl
  · exact (ServicesData.get_memoized [] rootFix root2Fix extOk extOk "calc").2.2
      (analyze rootFix extOk gsFix) [("calc", analyze rootFix extOk gsFix)] rfl








/-- The Empty attribute. -/
def emptyAttr : Attr := Attr.mk .empty ""

/-- Method expression of a unary endpoint with empty payload and a
non-empty result. -/
def me3 : MethodExpr :=
  { payload := emptyAttr, result := Attr.mk (.userT "Res3") "",
    streamingPayload := emptyAttr, stream := .noStream }

/-- Unary endpoint with empty payload (its request message is the named
empty message produced by makeProtoBufMessage). -/
def e3 : GRPCEndpointExpr :=
  { name := "m3", request := Attr.mk (.userT "M3Request") "",
    streamingRequest := emptyAttr,
    response := { message := Attr.mk (.userT "M3Response") "", headers := [],
                  trailers := [], statusCode := 0, description := "" },
    metadata := [], methodExpr := me3, requirements := [], grpcErrors := [] }

/-- Environment defining the request message of e3 as an empty message. -/
def env3 : Env := [("M3Request", Attr.mk (.object []) "")]

/-- C3 counterexample: for a concrete non-streaming endpoint whose method
payload is Empty, the CLIENT-side request convert data is built — it is
not nil as the claim states, because the client-side guard of
buildRequestConvertData only tests for a streaming payload, not for an
empty payload (service_data.go lines 638-643). -/
theorem client_request_convert_built_for_empty_payload :
    (buildRequestConvertData env3 extOk
      (protoBufAnalyzer e3.request "pb")
      (serviceAnalyzer me3.payload "calcsvc")
      [] e3 sdFix false).1.isSome = true := by
  rfl

/-- C3 (amended): the server-side request convert data is nil whenever the
payload needs no construction; both response convert data are nil whenever
the result needs no construction; and the CLI arguments are empty when the
request message has no fields and the endpoint binds no metadata. -/
theorem empty_payload_result_absence (env : Env) (ext : Ext)
    (requestAn payloadAn : Analyzer) (md : List MetadataData)
    (e : GRPCEndpointExpr) (sd : ServiceData) :
    (needInit env e.methodExpr.payload.type = false →
      buildRequestConvertData env ext requestAn payloadAn md e sd true = (none, sd)) ∧
    (∀ responseAn resultAn hdrs trlrs svr,
      needInit env e.methodExpr.result.type = false →
      buildResponseConvertData env ext responseAn resultAn hdrs trlrs e sd svr =
        (none, sd)) ∧
    (∀ payloadAn2 exampleRnd seen svcScope,
      asObject env e.request.type = some [] → e.metadata = [] →
      (requestDataBlock env ext e payloadAn2 exampleRnd sd seen svcScope).1.cliArgs = []) := by
  refine ⟨?_, ?_, ?_⟩
  · intro h
    unfold buildRequestConvertData
    simp [h]
  · intro responseAn resultAn hdrs trlrs svr h
    unfold buildResponseConvertData
    simp [h]
  · intro payloadAn2 exampleRnd seen svcScope hobj hmeta
    unfold requestDataBlock
    simp only [hmeta, hobj, extractMetadata]
    simp

/-- C3 amended witness: the concrete empty-payload endpoint — server
convert nil, responses nil for an empty-result variant, CLI args empty. -/
theorem empty_payload_result_absence_witness :
    (needInit env3 e3.methodExpr.payload.type = false ∧
      buildRequestConvertData env3 extOk (protoBufAnalyzer e3.request "pb")
        (serviceAnalyzer me3.payload "calcsvc") [] e3 sdFix true = (none, sdFix)) ∧
    (needInit env3 ({ e3 with methodExpr := { me3 with result := emptyAttr } } :
        GRPCEndpointExpr).methodExpr.result.type = false ∧
      buildResponseConvertData env3 extOk (protoBufAnalyzer e3.response.message "pb")
        (serviceAnalyzer emptyAttr "calcsvc") [] []
        { e3 with methodExpr := { me3 with result := emptyAttr } } sdFix true =
        (none, sdFix)) ∧
    (asObject env3 e3.request.type = some [] ∧ e3.metadata = [] ∧
      (requestDataBlock env3 extOk e3 (serviceAnalyzer me3.payload "calcsvc")
        (fun _ => "") sdFix [] []).1.cliArgs = []) := by
  refine ⟨⟨rfl, ?_⟩, ⟨rfl, ?_⟩, rfl, rfl, ?_⟩
  · exact (empty_payload_result_absence env3 extOk (protoBufAnalyzer e3.request "pb")
      (serviceAnalyzer me3.payload "calcsvc") [] e3 sdFix).1 rfl
  · exact (empty_payload_result_absence env3 extOk (protoBufAnalyzer e3.response.message "pb")
      (serviceAnalyzer emptyAttr "calcsvc") []
      { e3 with methodExpr := { me3 with result := emptyAttr } } sdFix).2.1
      (protoBufAnalyzer e3.response.message "pb") (serviceAnalyzer emptyAttr "calcsvc")
      [] [] true rfl
  · exact (empty_payload_result_absence env3 extOk (protoBufAnalyzer e3.request "pb")
      (serviceAnalyzer me3.payload "calcsvc") [] e3 sdFix).2.2
      (serviceAnalyzer me3.payload "calcsvc") (fun _ => "") [] [] rfl rfl

/-- C4: for an endpoint with a streaming payload, the client-side request
convert data is nil, and any server-side constructor carries exactly the
metadata-derived arguments — the unary message argument is stripped. -/
theorem streaming_payload_request_convert (env : Env) (ext : Ext)
    (requestAn payloadAn : Analyzer) (md : List MetadataData)
    (e : GRPCEndpointExpr) (sd : ServiceData)
    (h1 : e.methodExpr.isPayloadStreaming = true)
    (h2 : isEmptyType e.methodExpr.streamingPayload.type = false) :
    (buildRequestConvertData env ext requestAn payloadAn md e sd false).1 = none ∧
    (∀ cd sd1, buildRequestConvertData env ext requestAn payloadAn md e sd true =
        (some cd, sd1) →
      ∃ i, cd.init = some i ∧ i.args = md.map mdInitArg) := by
  constructor
  · unfold buildRequestConvertData
    simp [h1]
  · intro cd sd1 hget
    unfold buildRequestConvertData at hget
    by_cases hni : needInit env e.methodExpr.payload.type = true
    · simp only [hni, h2, Bool.not_true, Bool.and_false, Bool.false_and,
        Bool.or_self, Bool.false_eq_true, if_false, if_true] at hget
      unfold buildConvertData at hget
      cases htr : ext.transform requestAn payloadAn "message" "payload" false with
      | error er =>
        rw [htr] at hget
        simp at hget
      | ok v =>
        rw [htr] at hget
        cases v with
        | mk code helpers =>
          have hcd := Option.some.inj (congrArg Prod.fst hget)
          rw [← hcd]
          refine ⟨_, rfl, ?_⟩
          simp [h2]
    · simp only [Bool.not_eq_true] at hni
      simp only [hni, Bool.not_false, Bool.and_true, Bool.true_and, if_true,
        Bool.true_or, Bool.or_true] at hget
      simp at hget

/-- Method with a client-streaming payload. -/
def me4 : MethodExpr :=
  { payload := Attr.mk (.userT "Pay4") "", result := Attr.mk .empty "",
    streamingPayload := Attr.mk (.userT "SP4") "", stream := .clientStream }

/-- Endpoint with a streaming payload. -/
def e4 : GRPCEndpointExpr :=
  { name := "m4", request := Attr.mk (.userT "M4Request") "",
    streamingRequest := Attr.mk (.userT "M4StreamingRequest") "",
    response := { message := Attr.mk (.userT "M4Response") "", headers := [],
                  trailers := [], statusCode := 0, description := "" },
    metadata := [], methodExpr := me4, requirements := [], grpcErrors := [] }

/-- Environment defining the payload type with one field. -/
def env4 : Env :=
  [("Pay4", Attr.mk (.object [NamedAttr.mk "a" (Attr.mk (.primitive .int) "")]) "")]

/-- One concrete metadata entry. -/
def md4 : MetadataData :=
  { name := "k", attributeName := "k", description := "", fieldName := "K",
    varName := "k", typeName := "string", typeRef := "string", required := true,
    pointer := false, stringSlice := false, slice := false, mapStringSlice := false,
    mapFlag := false, typ := .primitive .string, validate := "", defaultValue := "",
    exampleVal := "" }

/-- C4 witness: on a concrete client-streaming endpoint the client convert
is nil and the server constructor's arguments are exactly the
metadata-derived ones. -/
theorem streaming_payload_request_convert_witness :
    (e4.methodExpr.isPayloadStreaming = true ∧
      isEmptyType e4.methodExpr.streamingPayload.type = false) ∧
    (buildRequestConvertData env4 extOk (protoBufAnalyzer e4.request "pb")
      (serviceAnalyzer me4.payload "calcsvc") [md4] e4 sdFix false).1 = none ∧
    (∃ cd sd1, buildRequestConvertData env4 extOk (protoBufAnalyzer e4.request "pb")
        (serviceAnalyzer me4.payload "calcsvc") [md4] e4 sdFix true = (some cd, sd1) ∧
      ∃ i, cd.init = some i ∧ i.args = [md4].map mdInitArg) := by
  refine ⟨⟨rfl, rfl⟩, ?_, ?_⟩
  · exact (streaming_payload_request_convert env4 extOk (protoBufAnalyzer e4.request "pb")
      (serviceAnalyzer me4.payload "calcsvc") [md4] e4 sdFix rfl rfl).1
  · refine ⟨_, _, rfl, ?_⟩
    exact (streaming_payload_request_convert env4 extOk (protoBufAnalyzer e4.request "pb")
      (serviceAnalyzer me4.payload "calcsvc") [md4] e4 sdFix rfl rfl).2 _ _ rfl


theorem buildConvertData_ok_isSome (env : Env) (ext : Ext) (s t : Analyzer)
    (sv tv : String) (p : Bool) (sd : ServiceData) (fn : Option (InitData → InitData))
    (r : String × List TransformFunctionData)
    (h : ext.transform s t sv tv p = .ok r) :
    (buildConvertData env ext s t sv tv p sd fn).1.isSome = true := by
  unfold buildConvertData
  rw [h]
  rfl

/-- C5 (amended): for a bidirectional streaming endpoint with non-empty
streaming payload and non-empty result, both stream data are built — the
server one with type "server", the client one with type "client" — and in
each of them BOTH adapter sides are populated (send and receive), per the
two independently-firing rows of the decision table; MustClose is copied
verbatim from the method's declared stream semantics. -/
theorem buildStreamData_bidirectional (env : Env) (ext : Ext)
    (e : GRPCEndpointExpr) (sd : ServiceData) (ed : EndpointData)
    (hed : sd.endpoint e.name = some ed)
    (hres : isEmptyType e.methodExpr.result.type = false)
    (hsp : isEmptyType e.methodExpr.streamingPayload.type = false)
    (htr : ∀ s t sv tv p, ∃ r, ext.transform s t sv tv p = Except.ok r) :
    (∃ ss sd1, buildStreamData env ext e sd true = (some ss, sd1) ∧
      ss.typ = "server" ∧ ss.sendConvert.isSome = true ∧
      ss.recvConvert.isSome = true ∧
      ss.mustClose = ed.method.serverStream.mustClose) ∧
    (∃ cs sd2, buildStreamData env ext e sd false = (some cs, sd2) ∧
      cs.typ = "client" ∧ cs.sendConvert.isSome = true ∧
      cs.recvConvert.isSome = true ∧
      cs.mustClose = ed.method.clientStream.mustClose) := by
  constructor
  · unfold buildStreamData
    rw [hed]
    simp only [hres, hsp, Bool.false_eq_true, if_false, if_true]
    refine ⟨_, _, rfl, rfl, ?_, ?_, rfl⟩
    · obtain ⟨r, hr⟩ := htr (resultAnalyzer e sd)
        (protoBufAnalyzer e.response.message sd.pkgName)
        (if ed.method.viewedResult.isSome then "vresult" else "result") "v" true
      exact buildConvertData_ok_isSome _ _ _ _ _ _ _ _ _ _ hr
    · obtain ⟨r, hr⟩ := htr (protoBufAnalyzer e.streamingRequest sd.pkgName)
        (serviceAnalyzer e.methodExpr.streamingPayload sd.service.pkgName)
        "v" "spayload" false
      exact buildConvertData_ok_isSome _ _ _ _ _ _ _ _ _ _ hr
  · unfold buildStreamData
    rw [hed]
    simp only [hres, hsp, Bool.false_eq_true, if_false, if_true]
    refine ⟨_, _, rfl, rfl, ?_, ?_, rfl⟩
    · obtain ⟨r, hr⟩ := htr
        (serviceAnalyzer e.methodExpr.streamingPayload sd.service.pkgName)
        (protoBufAnalyzer e.streamingRequest sd.pkgName)
        "spayload" "v" true
      exact buildConvertData_ok_isSome _ _ _ _ _ _ _ _ _ _ hr
    · obtain ⟨r, hr⟩ := htr (protoBufAnalyzer e.response.message sd.pkgName)
        (resultAnalyzer e sd) "v"
        (if ed.method.viewedResult.isSome then "vresult" else "result") false
      exact buildConvertData_ok_isSome _ _ _ _ _ _ _ _ _ _ hr








/-- Declared server-stream semantics of the bidirectional method (with a
terminal close). -/
def svcStreamS : SvcStreamData :=
  ⟨"M5ServerStream", "M5ServerIfc", "Send", "Recv", true⟩

/-- Declared client-stream semantics (no terminal close). -/
def svcStreamC : SvcStreamData :=
  ⟨"M5ClientStream", "M5ClientIfc", "SendC", "RecvC", false⟩

/-- The bidirectional method's service-level data. -/
def m5 : MethodData :=
  { name := "m5", varName := "M5", viewedResult := none,
    serverStream := svcStreamS, clientStream := svcStreamC, requirements := [] }

/-- Bidirectional streaming method expression with non-empty streaming
payload and non-empty result. -/
def me5 : MethodExpr :=
  { payload := Attr.mk .empty "", result := Attr.mk (.userT "Res5") "",
    streamingPayload := Attr.mk (.userT "SP5") "",
    stream := .bidirectionalStream }

/-- The bidirectional streaming endpoint expression. -/
def e5 : GRPCEndpointExpr :=
  { name := "m5", request := Attr.mk (.userT "M5Request") "",
    streamingRequest := Attr.mk (.userT "M5StreamingRequest") "",
    response := { message := Attr.mk (.userT "M5Response") "", headers := [],
                  trailers := [], statusCode := 0, description := "" },
    metadata := [], methodExpr := me5, requirements := [], grpcErrors := [] }

/-- Zero-valued request data. -/
def reqd0 : RequestData :=
  { description := "", message := none, metadata := [], serverConvert := none,
    clientConvert := none, cliArgs := [] }

/-- Zero-valued response data. -/
def respd0 : ResponseData :=
  { statusCode := "", description := "", message := none, headers := [],
    trailers := [], serverConvert := none, clientConvert := none }

/-- The endpoint data of m5 as appended by analyze before streams are
attached. -/
def ed5 : EndpointData :=
  { serviceName := "calc", pkgName := "pb", servicePkgName := "calcsvc",
    method := m5, payloadRef := "", resultRef := "calcsvc.Res5",
    viewedResultRef := "", request := reqd0, response := respd0,
    metadataSchemes := [], messageSchemes := [], errors := [],
    serverStruct := "Server", serverInterface := "CalcServer", serverStream := none,
    clientStruct := "Client", clientInterface := "CalcClient", clientStream := none }

/-- Service data holding the m5 endpoint. -/
def sd5 : ServiceData :=
  { sdFix with endpoints := [ed5], service := { svcFix with methods := [m5] } }

/-- C5 counterexample: on the concrete bidirectional endpoint, the server
stream data has BOTH its send and its receive adapter populated — not
"exactly one non-nil adapter side" as the claim states (both table rows
fire when the endpoint has a result and a streaming payload). -/
theorem buildStreamData_server_both_adapters :
    ((buildStreamData [] extOk e5 sd5 true).1.map
      (fun s => (s.sendConvert.isSome, s.recvConvert.isSome))) = some (true, true) := by
  rfl

/-- C5 witness: the amended statement instantiated on the concrete
bidirectional endpoint. -/
theorem buildStreamData_bidirectional_witness :
    (sd5.endpoint e5.name = some ed5 ∧
      isEmptyType e5.methodExpr.result.type = false ∧
      isEmptyType e5.methodExpr.streamingPayload.type = false) ∧
    (∃ ss sd1, buildStreamData [] extOk e5 sd5 true = (some ss, sd1) ∧
      ss.typ = "server" ∧ ss.sendConvert.isSome = true ∧
      ss.recvConvert.isSome = true ∧
      ss.mustClose = ed5.method.serverStream.mustClose) ∧
    (∃ cs sd2, buildStreamData [] extOk e5 sd5 false = (some cs, sd2) ∧
      cs.typ = "client" ∧ cs.sendConvert.isSome = true ∧
      cs.recvConvert.isSome = true ∧
      cs.mustClose = ed5.method.clientStream.mustClose) := by
  have h := buildStreamData_bidirectional [] extOk e5 sd5 ed5 rfl rfl rfl
    (fun s t sv tv p => ⟨("", []), rfl⟩)
  exact ⟨⟨rfl, rfl, rfl⟩, h.1, h.2⟩




/-- C8: ordering and determinism of the message collection: (a) the result
depends on the seen set only through membership — in particular the
iteration-order nondeterminism of the Go map cannot influence it, so two
runs on the same input are identical; (b) an unseen user type's own
descriptor is emitted before the descriptors of the types nested in its
definition; (c) an object recurses into its fields; (d) fields are
traversed in declaration order, each sibling collected after the previous
one's names are marked seen; (e) a map traverses its key type before its
element type. -/
theorem collectMessages_ordering (env : Env) (ext : Ext) (an : Analyzer)
    (seen : List String) :
    (∀ seen2, (∀ x, seen.contains x = seen2.contains x) →
      collectMessages env ext an seen = collectMessages env ext an seen2) ∧
    (∀ n d da, an.attr = some (Attr.mk (.userT n) d) → seen.contains n = false →
      env.lookup n = some da →
      (collectMessages env ext an seen).1 =
        ⟨n, protoBufMessageName (Attr.mk (.userT n) d), da.description,
          ext.defF (an.dup da true), an.ref env true, .userT n⟩ ::
        (collectMessages env ext (an.dup da true) (n :: seen)).1) ∧
    (∀ fields d, an.attr = some (Attr.mk (.object fields) d) →
      collectMessages env ext an seen = collectMessagesFields env ext an fields seen) ∧
    (∀ f rest, (collectMessagesFields env ext an (f :: rest) seen).1 =
      (collectMessages env ext (an.dup f.attr true) seen).1 ++
      (collectMessagesFields env ext an rest
        ((collectMessages env ext (an.dup f.attr true) seen).2.1 ++ seen)).1) ∧
    (∀ k e d, an.attr = some (Attr.mk (.mapT k e) d) →
      (collectMessages env ext an seen).1 =
        (collectMessages env ext (an.dup k true) seen).1 ++
        (collectMessages env ext (an.dup e true)
          ((collectMessages env ext (an.dup k true) seen).2.1 ++ seen)).1) := by
  refine ⟨collectMessages_seen_ext env ext an seen, ?_, ?_, ?_, ?_⟩
  · intro n d da ha hs hl
    rw [cm_user env ext an seen n d da ha hs hl]
  · intro fields d ha
    exact cm_object env ext an seen fields d ha
  · intro f rest
    rw [cmf_cons env ext an seen f rest]
  · intro k e d ha
    rw [cm_map env ext an seen k e d ha]

/-- Environment for the ordering witness: a user type with one field, and
a map-typed attribute. -/
def env8 : Env :=
  [("T8", Attr.mk (.object [NamedAttr.mk "x" (Attr.mk (.primitive .int) "")]) "d8")]

/-- C8 witness: each part of the ordering theorem instantiated on concrete
attributes; the two seen lists ["z"] and ["z", "z"] agree on membership. -/
theorem collectMessages_ordering_witness :
    (collectMessages env8 extOk (protoBufAnalyzer (Attr.mk (.userT "T8") "") "pb") ["z"] =
      collectMessages env8 extOk (protoBufAnalyzer (Attr.mk (.userT "T8") "") "pb") ["z", "z"]) ∧
    ((collectMessages env8 extOk (protoBufAnalyzer (Attr.mk (.userT "T8") "") "pb") []).1 =
      ⟨"T8", protoBufMessageName (Attr.mk (.userT "T8") ""),
        "d8", extOk.defF ((protoBufAnalyzer (Attr.mk (.userT "T8") "") "pb").dup
          (Attr.mk (.object [NamedAttr.mk "x" (Attr.mk (.primitive .int) "")]) "d8") true),
        (protoBufAnalyzer (Attr.mk (.userT "T8") "") "pb").ref env8 true, .userT "T8"⟩ ::
      (collectMessages env8 extOk
        ((protoBufAnalyzer (Attr.mk (.userT "T8") "") "pb").dup
          (Attr.mk (.object [NamedAttr.mk "x" (Attr.mk (.primitive .int) "")]) "d8") true)
        ["T8"]).1) ∧
    ((collectMessagesFields env8 extOk (protoBufAnalyzer (Attr.mk (.userT "T8") "") "pb")
        [NamedAttr.mk "a" (Attr.mk (.userT "T8") ""), NamedAttr.mk "b" (Attr.mk (.userT "T8") "")] []).1 =
      (collectMessages env8 extOk ((protoBufAnalyzer (Attr.mk (.userT "T8") "") "pb").dup
          (NamedAttr.mk "a" (Attr.mk (.userT "T8") "")).attr true) []).1 ++
      (collectMessagesFields env8 extOk (protoBufAnalyzer (Attr.mk (.userT "T8") "") "pb")
        [NamedAttr.mk "b" (Attr.mk (.userT "T8") "")]
        ((collectMessages env8 extOk ((protoBufAnalyzer (Attr.mk (.userT "T8") "") "pb").dup
          (NamedAttr.mk "a" (Attr.mk (.userT "T8") "")).attr true) []).2.1 ++ [])).1) := by
  refine ⟨?_, ?_, ?_⟩
  · exact (collectMessages_ordering env8 extOk
      (protoBufAnalyzer (Attr.mk (.userT "T8") "") "pb") ["z"]).1 ["z", "z"]
      (by intro x; cases h : x == "z" <;> simp [List.contains_cons, h])
  · exact (collectMessages_ordering env8 extOk
      (protoBufAnalyzer (Attr.mk (.userT "T8") "") "pb") []).2.1 "T8" ""
      (Attr.mk (.object [NamedAttr.mk "x" (Attr.mk (.primitive .int) "")]) "d8")
      rfl rfl rfl
  · exact (collectMessages_ordering env8 extOk
      (protoBufAnalyzer (Attr.mk (.userT "T8") "") "pb") []).2.2.2.1
      (NamedAttr.mk "a" (Attr.mk (.userT "T8") ""))
      [NamedAttr.mk "b" (Attr.mk (.userT "T8") "")]

end GoaGrpc
